import Mathlib

/-
Verification of the AI OpenScale V1 client (`watson_developer_cloud/ai_open_scale_v1.py`):
the JSON record codecs (`_from_dict` / `_to_dict` on each model class) and the four
endpoint operations (`post_feedback_payload`, `get_explanation_task`,
`post_explanation_task`, `fairness_monitoring_debias`).

Modelling conventions:
- `Json` is the value universe handled by the `json` module.  Python maps JSON
  `null` to `None`, and `None` is also the default of every unset optional
  attribute, so `Json.null` plays both roles: a record attribute holding
  `Json.null` is exactly a Python attribute holding `None`.
- Attributes typed as nested records or lists of records in the docstrings are
  modelled with `Option`, `none` standing for Python `None`.
- A Python `dict` is an association list with first-match lookup (a real `dict`
  has no duplicate keys, and insertion order is preserved).
- `_from_dict` raising is modelled with `Except DecodeError`:
  `missingRequiredField` is the `ValueError('Required property ... not present
  in ... JSON')` branch, and `typeError` stands for the `TypeError` (or
  similar) Python raises when the dict operations inside `_from_dict` are
  applied to a non-dict value such as `None`.
- Each endpoint operation returns `Except String Request`: `.error msg` is the
  `ValueError(msg)` raised before `self.request` is reached (so no request is
  built and no network call is made), and `.ok req` carries exactly the
  arguments the operation passes to `self.request`.
-/

namespace AiOpenScale

/-- A JSON value as handled by the `json` module.  `Json.null` doubles as the
Python `None` used as the default of unset optional record attributes. -/
inductive Json where
  | null
  | bool (b : Bool)
  | num (n : Int)
  | str (s : String)
  | arr (elts : List Json)
  | obj (kvs : List (String × Json))

/-- Models the Python test `x is None` (JSON null and Python None coincide). -/
def Json.isNull : Json → Bool
  | .null => true
  | _ => false

/-- The entries of a decoded JSON dictionary (empty for non-objects). -/
def Json.entries : Json → List (String × Json)
  | .obj kvs => kvs
  | _ => []

/-- Errors raised by `_from_dict`: `missingRequiredField f r` is the
`ValueError` naming the absent required property `f` and the record class `r`;
`typeError` stands for the `TypeError` raised when dictionary operations are
applied to a non-dict value such as `None`. -/
inductive DecodeError where
  | missingRequiredField (field : String) (record : String)
  | typeError
deriving DecidableEq, Repr

/-- First-match key lookup in an association list, modelling both
`'k' in _dict` (`isSome`) and `_dict.get('k')`. -/
def lookupKey : List (String × α) → String → Option α
  | [], _ => none
  | p :: tl, k => if p.1 = k then some p.2 else lookupKey tl k

/-- Models a Python list comprehension over a decoder: elements are decoded in
order and the first raised error aborts the whole comprehension. -/
def mapExcept (f : α → Except ε β) : List α → Except ε (List β)
  | [] => .ok []
  | x :: xs =>
    match f x with
    | .error e => .error e
    | .ok y =>
      match mapExcept f xs with
      | .error e => .error e
      | .ok ys => .ok (y :: ys)

/-- Models `[T._from_dict(x) for x in v]`: iterating a JSON array decodes each
element; iterating `None` or another non-list raises a `TypeError`. -/
def decodeJsonList (f : Json → Except DecodeError α) : Json → Except DecodeError (List α)
  | .arr xs => mapExcept f xs
  | _ => .error .typeError

/-- Models `if 'f' in _dict: args['f'] = Sub._from_dict(_dict.get('f'))` for an
optional nested attribute: an absent key leaves the default `None`. -/
def decodeOpt (f : Json → Except DecodeError α) : Option Json → Except DecodeError (Option α)
  | some v => (f v).map some
  | none => .ok none

/-- Models the same pattern for a required nested attribute: an absent key
raises the `ValueError` naming the property and the record class. -/
def decodeReqSub (f : Json → Except DecodeError α) (field record : String) :
    Option Json → Except DecodeError (Option α)
  | some v => (f v).map some
  | none => .error (.missingRequiredField field record)

/-- Models `if 'f' in _dict: args['f'] = _dict.get('f') else: raise ValueError`
for a required plain attribute. -/
def reqField (field record : String) : Option Json → Except DecodeError Json
  | some v => .ok v
  | none => .error (.missingRequiredField field record)

/-- Models `if self.f is not None: _dict['f'] = self.f` for a plain attribute. -/
def optField (k : String) (v : Json) : List (String × Json) :=
  if v.isNull then [] else [(k, v)]

/-- Models `if self.f is not None: _dict['f'] = <encoded f>` for a nested
attribute, the encoding already applied inside the `Option`. -/
def optSub (k : String) : Option Json → List (String × Json)
  | some j => [(k, j)]
  | none => []

/-! ### Typed records and their codecs

One structure per model class of the source, attributes in source order,
defaults mirroring the `__init__` defaults.  `_from_dict` and `_to_dict`
transcribe the corresponding methods line by line.  The classes are declared
here in dependency order rather than the source's alphabetical order. -/

structure ExplanationTaskResponseEntityAssetDeployment where
  id : Json := .null
  name : Json := .null

def ExplanationTaskResponseEntityAssetDeployment._from_dict :
    Json → Except DecodeError ExplanationTaskResponseEntityAssetDeployment
  | .obj kvs =>
    .ok { id := (lookupKey kvs "id").getD .null
          name := (lookupKey kvs "name").getD .null }
  | _ => .error .typeError

def ExplanationTaskResponseEntityAssetDeployment._to_dict
    (self : ExplanationTaskResponseEntityAssetDeployment) : Json :=
  .obj (optField "id" self.id ++ optField "name" self.name)

structure ExplanationTaskResponseEntityAsset where
  id : Json := .null
  name : Json := .null
  type : Json := .null
  deployment : Option ExplanationTaskResponseEntityAssetDeployment := none

def ExplanationTaskResponseEntityAsset._from_dict :
    Json → Except DecodeError ExplanationTaskResponseEntityAsset
  | .obj kvs => do
    let deployment ← decodeOpt ExplanationTaskResponseEntityAssetDeployment._from_dict
      (lookupKey kvs "deployment")
    .ok { id := (lookupKey kvs "id").getD .null
          name := (lookupKey kvs "name").getD .null
          type := (lookupKey kvs "type").getD .null
          deployment := deployment }
  | _ => .error .typeError

def ExplanationTaskResponseEntityAsset._to_dict
    (self : ExplanationTaskResponseEntityAsset) : Json :=
  .obj (optField "id" self.id ++ optField "name" self.name ++ optField "type" self.type ++
    optSub "deployment"
      (self.deployment.map ExplanationTaskResponseEntityAssetDeployment._to_dict))

structure ExplanationTaskResponseEntityExplanationFeatureFeatureRange where
  min : Json := .null
  min_inclusive : Json := .null
  max : Json := .null
  max_inclusive : Json := .null

def ExplanationTaskResponseEntityExplanationFeatureFeatureRange._from_dict :
    Json → Except DecodeError ExplanationTaskResponseEntityExplanationFeatureFeatureRange
  | .obj kvs =>
    .ok { min := (lookupKey kvs "min").getD .null
          min_inclusive := (lookupKey kvs "min_inclusive").getD .null
          max := (lookupKey kvs "max").getD .null
          max_inclusive := (lookupKey kvs "max_inclusive").getD .null }
  | _ => .error .typeError

def ExplanationTaskResponseEntityExplanationFeatureFeatureRange._to_dict
    (self : ExplanationTaskResponseEntityExplanationFeatureFeatureRange) : Json :=
  .obj (optField "min" self.min ++ optField "min_inclusive" self.min_inclusive ++
    optField "max" self.max ++ optField "max_inclusive" self.max_inclusive)

structure ExplanationTaskResponseEntityExplanationFeature where
  feature_name : Json := .null
  weight : Json := .null
  importance : Json := .null
  feature_value : Json := .null
  feature_range : Option ExplanationTaskResponseEntityExplanationFeatureFeatureRange := none

def ExplanationTaskResponseEntityExplanationFeature._from_dict :
    Json → Except DecodeError ExplanationTaskResponseEntityExplanationFeature
  | .obj kvs => do
    let feature_range ←
      decodeOpt ExplanationTaskResponseEntityExplanationFeatureFeatureRange._from_dict
        (lookupKey kvs "feature_range")
    .ok { feature_name := (lookupKey kvs "feature_name").getD .null
          weight := (lookupKey kvs "weight").getD .null
          importance := (lookupKey kvs "importance").getD .null
          feature_value := (lookupKey kvs "feature_value").getD .null
          feature_range := feature_range }
  | _ => .error .typeError

def ExplanationTaskResponseEntityExplanationFeature._to_dict
    (self : ExplanationTaskResponseEntityExplanationFeature) : Json :=
  .obj (optField "feature_name" self.feature_name ++ optField "weight" self.weight ++
    optField "importance" self.importance ++ optField "feature_value" self.feature_value ++
    optSub "feature_range"
      (self.feature_range.map
        ExplanationTaskResponseEntityExplanationFeatureFeatureRange._to_dict))

structure ExplanationTaskResponseEntityInputFeature where
  name : Json := .null
  value : Json := .null
  feature_type : Json := .null

def ExplanationTaskResponseEntityInputFeature._from_dict :
    Json → Except DecodeError ExplanationTaskResponseEntityInputFeature
  | .obj kvs =>
    .ok { name := (lookupKey kvs "name").getD .null
          value := (lookupKey kvs "value").getD .null
          feature_type := (lookupKey kvs "feature_type").getD .null }
  | _ => .error .typeError

def ExplanationTaskResponseEntityInputFeature._to_dict
    (self : ExplanationTaskResponseEntityInputFeature) : Json :=
  .obj (optField "name" self.name ++ optField "value" self.value ++
    optField "feature_type" self.feature_type)

structure ExplanationTaskResponseEntityPrediction where
  value : Json := .null
  probability : Json := .null
  explanation_features : Option (List ExplanationTaskResponseEntityExplanationFeature) := none

def ExplanationTaskResponseEntityPrediction._from_dict :
    Json → Except DecodeError ExplanationTaskResponseEntityPrediction
  | .obj kvs => do
    let explanation_features ←
      decodeOpt (decodeJsonList ExplanationTaskResponseEntityExplanationFeature._from_dict)
        (lookupKey kvs "explanation_features")
    .ok { value := (lookupKey kvs "value").getD .null
          probability := (lookupKey kvs "probability").getD .null
          explanation_features := explanation_features }
  | _ => .error .typeError

def ExplanationTaskResponseEntityPrediction._to_dict
    (self : ExplanationTaskResponseEntityPrediction) : Json :=
  .obj (optField "value" self.value ++ optField "probability" self.probability ++
    optSub "explanation_features"
      (self.explanation_features.map fun l =>
        Json.arr (l.map ExplanationTaskResponseEntityExplanationFeature._to_dict)))

structure ExplanationTaskResponseEntityContrastiveExplanation where
  pertinent_positive_features : Option (List ExplanationTaskResponseEntityExplanationFeature) := none
  pertinent_negative_features : Option (List ExplanationTaskResponseEntityExplanationFeature) := none

def ExplanationTaskResponseEntityContrastiveExplanation._from_dict :
    Json → Except DecodeError ExplanationTaskResponseEntityContrastiveExplanation
  | .obj kvs => do
    let pos ←
      decodeOpt (decodeJsonList ExplanationTaskResponseEntityExplanationFeature._from_dict)
        (lookupKey kvs "pertinent_positive_features")
    let neg ←
      decodeOpt (decodeJsonList ExplanationTaskResponseEntityExplanationFeature._from_dict)
        (lookupKey kvs "pertinent_negative_features")
    .ok { pertinent_positive_features := pos
          pertinent_negative_features := neg }
  | _ => .error .typeError

def ExplanationTaskResponseEntityContrastiveExplanation._to_dict
    (self : ExplanationTaskResponseEntityContrastiveExplanation) : Json :=
  .obj (optSub "pertinent_positive_features"
      (self.pertinent_positive_features.map fun l =>
        Json.arr (l.map ExplanationTaskResponseEntityExplanationFeature._to_dict)) ++
    optSub "pertinent_negative_features"
      (self.pertinent_negative_features.map fun l =>
        Json.arr (l.map ExplanationTaskResponseEntityExplanationFeature._to_dict)))

structure ExplanationTaskResponseEntityStatus where
  state : Json := .null
  lime_state : Json := .null
  cem_state : Json := .null

def ExplanationTaskResponseEntityStatus._from_dict :
    Json → Except DecodeError ExplanationTaskResponseEntityStatus
  | .obj kvs =>
    .ok { state := (lookupKey kvs "state").getD .null
          lime_state := (lookupKey kvs "lime_state").getD .null
          cem_state := (lookupKey kvs "cem_state").getD .null }
  | _ => .error .typeError

def ExplanationTaskResponseEntityStatus._to_dict
    (self : ExplanationTaskResponseEntityStatus) : Json :=
  .obj (optField "state" self.state ++ optField "lime_state" self.lime_state ++
    optField "cem_state" self.cem_state)

structure ExplanationTaskResponseEntity where
  status : Option ExplanationTaskResponseEntityStatus
  asset : Option ExplanationTaskResponseEntityAsset := none
  input_features : Option (List ExplanationTaskResponseEntityInputFeature) := none
  predictions : Option (List ExplanationTaskResponseEntityPrediction) := none
  contrastive_explanation : Option ExplanationTaskResponseEntityContrastiveExplanation := none

def ExplanationTaskResponseEntity._from_dict :
    Json → Except DecodeError ExplanationTaskResponseEntity
  | .obj kvs => do
    let status ← decodeReqSub ExplanationTaskResponseEntityStatus._from_dict
      "status" "ExplanationTaskResponseEntity" (lookupKey kvs "status")
    let asset ← decodeOpt ExplanationTaskResponseEntityAsset._from_dict
      (lookupKey kvs "asset")
    let input_features ←
      decodeOpt (decodeJsonList ExplanationTaskResponseEntityInputFeature._from_dict)
        (lookupKey kvs "input_features")
    let predictions ←
      decodeOpt (decodeJsonList ExplanationTaskResponseEntityPrediction._from_dict)
        (lookupKey kvs "predictions")
    let contrastive_explanation ←
      decodeOpt ExplanationTaskResponseEntityContrastiveExplanation._from_dict
        (lookupKey kvs "contrastive_explanation")
    .ok { status := status
          asset := asset
          input_features := input_features
          predictions := predictions
          contrastive_explanation := contrastive_explanation }
  | _ => .error .typeError

def ExplanationTaskResponseEntity._to_dict (self : ExplanationTaskResponseEntity) : Json :=
  .obj (optSub "status" (self.status.map ExplanationTaskResponseEntityStatus._to_dict) ++
    optSub "asset" (self.asset.map ExplanationTaskResponseEntityAsset._to_dict) ++
    optSub "input_features"
      (self.input_features.map fun l =>
        Json.arr (l.map ExplanationTaskResponseEntityInputFeature._to_dict)) ++
    optSub "predictions"
      (self.predictions.map fun l =>
        Json.arr (l.map ExplanationTaskResponseEntityPrediction._to_dict)) ++
    optSub "contrastive_explanation"
      (self.contrastive_explanation.map
        ExplanationTaskResponseEntityContrastiveExplanation._to_dict))

structure ExplanationTaskResponseMetadata where
  id : Json
  created_by : Json
  created_at : Json
  updated_at : Json := .null

def ExplanationTaskResponseMetadata._from_dict :
    Json → Except DecodeError ExplanationTaskResponseMetadata
  | .obj kvs => do
    let id ← reqField "id" "ExplanationTaskResponseMetadata" (lookupKey kvs "id")
    let created_by ← reqField "created_by" "ExplanationTaskResponseMetadata"
      (lookupKey kvs "created_by")
    let created_at ← reqField "created_at" "ExplanationTaskResponseMetadata"
      (lookupKey kvs "created_at")
    .ok { id := id
          created_by := created_by
          created_at := created_at
          updated_at := (lookupKey kvs "updated_at").getD .null }
  | _ => .error .typeError

def ExplanationTaskResponseMetadata._to_dict
    (self : ExplanationTaskResponseMetadata) : Json :=
  .obj (optField "id" self.id ++ optField "created_by" self.created_by ++
    optField "created_at" self.created_at ++ optField "updated_at" self.updated_at)

structure FairnessMonitoringRemediationResponse where
  fields : Json
  values : Json

def FairnessMonitoringRemediationResponse._from_dict :
    Json → Except DecodeError FairnessMonitoringRemediationResponse
  | .obj kvs => do
    let fields ← reqField "fields" "FairnessMonitoringRemediationResponse"
      (lookupKey kvs "fields")
    let values ← reqField "values" "FairnessMonitoringRemediationResponse"
      (lookupKey kvs "values")
    .ok { fields := fields, values := values }
  | _ => .error .typeError

def FairnessMonitoringRemediationResponse._to_dict
    (self : FairnessMonitoringRemediationResponse) : Json :=
  .obj (optField "fields" self.fields ++ optField "values" self.values)

structure GetExplanationTaskResponse where
  metadata : Option ExplanationTaskResponseMetadata
  entity : Option ExplanationTaskResponseEntity

def GetExplanationTaskResponse._from_dict :
    Json → Except DecodeError GetExplanationTaskResponse
  | .obj kvs => do
    let metadata ← decodeReqSub ExplanationTaskResponseMetadata._from_dict
      "metadata" "GetExplanationTaskResponse" (lookupKey kvs "metadata")
    let entity ← decodeReqSub ExplanationTaskResponseEntity._from_dict
      "entity" "GetExplanationTaskResponse" (lookupKey kvs "entity")
    .ok { metadata := metadata, entity := entity }
  | _ => .error .typeError

def GetExplanationTaskResponse._to_dict (self : GetExplanationTaskResponse) : Json :=
  .obj (optSub "metadata" (self.metadata.map ExplanationTaskResponseMetadata._to_dict) ++
    optSub "entity" (self.entity.map ExplanationTaskResponseEntity._to_dict))

structure PostExplanationTaskResponseEntityStatus where
  state : Json := .null

def PostExplanationTaskResponseEntityStatus._from_dict :
    Json → Except DecodeError PostExplanationTaskResponseEntityStatus
  | .obj kvs => .ok { state := (lookupKey kvs "state").getD .null }
  | _ => .error .typeError

def PostExplanationTaskResponseEntityStatus._to_dict
    (self : PostExplanationTaskResponseEntityStatus) : Json :=
  .obj (optField "state" self.state)

structure PostExplanationTaskResponseEntity where
  status : Option PostExplanationTaskResponseEntityStatus

def PostExplanationTaskResponseEntity._from_dict :
    Json → Except DecodeError PostExplanationTaskResponseEntity
  | .obj kvs => do
    let status ← decodeReqSub PostExplanationTaskResponseEntityStatus._from_dict
      "status" "PostExplanationTaskResponseEntity" (lookupKey kvs "status")
    .ok { status := status }
  | _ => .error .typeError

def PostExplanationTaskResponseEntity._to_dict
    (self : PostExplanationTaskResponseEntity) : Json :=
  .obj (optSub "status" (self.status.map PostExplanationTaskResponseEntityStatus._to_dict))

structure PostExplanationTaskResponse where
  metadata : Option ExplanationTaskResponseMetadata
  entity : Option PostExplanationTaskResponseEntity

def PostExplanationTaskResponse._from_dict :
    Json → Except DecodeError PostExplanationTaskResponse
  | .obj kvs => do
    let metadata ← decodeReqSub ExplanationTaskResponseMetadata._from_dict
      "metadata" "PostExplanationTaskResponse" (lookupKey kvs "metadata")
    let entity ← decodeReqSub PostExplanationTaskResponseEntity._from_dict
      "entity" "PostExplanationTaskResponse" (lookupKey kvs "entity")
    .ok { metadata := metadata, entity := entity }
  | _ => .error .typeError

def PostExplanationTaskResponse._to_dict (self : PostExplanationTaskResponse) : Json :=
  .obj (optSub "metadata" (self.metadata.map ExplanationTaskResponseMetadata._to_dict) ++
    optSub "entity" (self.entity.map PostExplanationTaskResponseEntity._to_dict))

/-! ### Endpoint operations

Each operation is the pure content of the corresponding method of
`AiOpenScaleV1`: the required-parameter checks in source order, the header
dictionary (with the `headers` keyword-argument override applied through
`dict.update`), the body dictionary, and the URL handed to `self.request`.
An `.error msg` result is the `ValueError(msg)` raised before `self.request`
is ever reached, so no request is built and no network call happens. -/

/-- The arguments an operation passes to `self.request` (method, url, headers,
json body).  Header values are `Option String`: `none` is a Python `None`
header value. -/
structure Request where
  method : String
  url : String
  headers : List (String × Option String)
  body : Option Json

/-- Python `base.update(extra)`: values of existing keys are overwritten in
place, new keys are appended in `extra` order. -/
def dictUpdate (base extra : List (String × α)) : List (String × α) :=
  base.map (fun p => (p.1, (lookupKey extra p.1).getD p.2)) ++
    extra.filter fun p => (lookupKey base p.1).isNone

/-- The header dictionary an operation builds: the fixed/derived headers,
then `headers.update(kwargs.get('headers'))` when the caller passed one. -/
def buildHeaders (base : List (String × Option String))
    (kwargs_headers : Option (List (String × Option String))) :
    List (String × Option String) :=
  match kwargs_headers with
  | some h => dictUpdate base h
  | none => base

/-- Modelled from the spec: `WatsonService._encode_path_vars` lives in
`watson_service.py`, which is not under `src/`.  The spec says path parameters
are substituted "percent-encoding each substituted segment", so unreserved URI
characters pass through and every other character becomes a percent escape of
its code (ASCII assumed). -/
def percentEncodeChar (c : Char) : List Char :=
  if c.isAlphanum || c = '-' || c = '.' || c = '_' || c = '~' then [c]
  else
    let hexDigit : Nat → Char := fun n =>
      if n < 10 then Char.ofNat (48 + n) else Char.ofNat (55 + n)
    ['%', hexDigit (c.toNat / 16 % 16), hexDigit (c.toNat % 16)]

/-- Modelled from the spec: percent-encoding of one substituted path segment
(see `percentEncodeChar`). -/
def encode_path_var (s : String) : String :=
  String.mk (s.toList.map percentEncodeChar).flatten

/-- Modelled from the spec: the request plumbing (`WatsonService.request` in
`watson_service.py`, not under `src/`) drops body keys whose value is null
before sending — "encoding to JSON omits any optional field whose value is
absent, never emitting a null placeholder". -/
def remove_null_values : Json → Json
  | .obj kvs => .obj (kvs.filter fun p => !p.2.isNull)
  | j => j

/-- Modelled from the spec: the JSON body that actually goes on the wire,
i.e. the operation's body dictionary after `remove_null_values`. -/
def requestSentBody (req : Request) : Option Json :=
  req.body.map remove_null_values

/-- `AiOpenScaleV1.post_feedback_payload`.  `data_mart_id`, `binding_id` and
`subscription_id` are `str` parameters (`none` = Python `None`); `values` and
`fields` are JSON parameters where `Json.null` is Python `None` (the default
of `fields`). -/
def post_feedback_payload (data_mart_id binding_id subscription_id : Option String)
    (values : Json) (fields : Json := .null)
    (kwargs_headers : Option (List (String × Option String)) := none) :
    Except String Request :=
  match data_mart_id with
  | none => .error "data_mart_id must be provided"
  | some dm =>
  match binding_id with
  | none => .error "binding_id must be provided"
  | some b =>
  match subscription_id with
  | none => .error "subscription_id must be provided"
  | some s =>
  if values.isNull then .error "values must be provided"
  else
    let headers := buildHeaders [] kwargs_headers
    let data : Json := .obj [("binding_id", .str b), ("subscription_id", .str s),
      ("values", values), ("fields", fields)]
    .ok { method := "POST"
          url := "/v1/data_marts/" ++ encode_path_var dm ++ "/feedback_payloads"
          headers := headers
          body := some data }

/-- `AiOpenScaleV1.get_explanation_task`. -/
def get_explanation_task (data_mart_id explanation_task_id : Option String)
    (kwargs_headers : Option (List (String × Option String)) := none) :
    Except String Request :=
  match data_mart_id with
  | none => .error "data_mart_id must be provided"
  | some dm =>
  match explanation_task_id with
  | none => .error "explanation_task_id must be provided"
  | some et =>
    let headers := buildHeaders [] kwargs_headers
    .ok { method := "GET"
          url := "/v1/data_marts/" ++ encode_path_var dm ++ "/explanation_tasks/" ++
            encode_path_var et
          headers := headers
          body := none }

/-- `AiOpenScaleV1.post_explanation_task`. -/
def post_explanation_task (data_mart_id scoring_id : Option String)
    (kwargs_headers : Option (List (String × Option String)) := none) :
    Except String Request :=
  match data_mart_id with
  | none => .error "data_mart_id must be provided"
  | some dm =>
  match scoring_id with
  | none => .error "scoring_id must be provided"
  | some sid =>
    let headers := buildHeaders [] kwargs_headers
    .ok { method := "POST"
          url := "/v1/data_marts/" ++ encode_path_var dm ++ "/explanation_tasks"
          headers := headers
          body := some (.obj [("scoring_id", .str sid)]) }

/-- `AiOpenScaleV1.fairness_monitoring_debias`.  `fields` and `values` are JSON
parameters (`Json.null` = Python `None`); `x_global_transaction_id` is a `str`
defaulting to `None` and goes into the derived header dictionary. -/
def fairness_monitoring_debias
    (data_mart_id binding_id subscription_id deployment_id : Option String)
    (fields values : Json) (x_global_transaction_id : Option String := none)
    (kwargs_headers : Option (List (String × Option String)) := none) :
    Except String Request :=
  match data_mart_id with
  | none => .error "data_mart_id must be provided"
  | some dm =>
  match binding_id with
  | none => .error "binding_id must be provided"
  | some b =>
  match subscription_id with
  | none => .error "subscription_id must be provided"
  | some s =>
  match deployment_id with
  | none => .error "deployment_id must be provided"
  | some d =>
  if fields.isNull then .error "fields must be provided"
  else if values.isNull then .error "values must be provided"
  else
    let headers := buildHeaders [("X-Global-Transaction-Id", x_global_transaction_id)]
      kwargs_headers
    let data : Json := .obj [("fields", fields), ("values", values)]
    .ok { method := "POST"
          url := "/v1/data_marts/" ++ encode_path_var dm ++ "/service_bindings/" ++
            encode_path_var b ++ "/subscriptions/" ++ encode_path_var s ++
            "/deployments/" ++ encode_path_var d ++ "/online"
          headers := headers
          body := some data }

def sampleMetadata : ExplanationTaskResponseMetadata :=
  { id := .str "t1", created_by := .str "u1", created_at := .str "2018-01-01" }

def sampleStatus : ExplanationTaskResponseEntityStatus := { state := .str "finished" }

def sampleEntity : ExplanationTaskResponseEntity := { status := some sampleStatus }

def sampleGet : GetExplanationTaskResponse :=
  { metadata := some sampleMetadata, entity := some sampleEntity }

def samplePostEntity : PostExplanationTaskResponseEntity :=
  { status := some { state := .str "in_progress" } }

def samplePost : PostExplanationTaskResponse :=
  { metadata := some sampleMetadata, entity := some samplePostEntity }

def sampleFairness : FairnessMonitoringRemediationResponse :=
  { fields := .arr [.str "age"], values := .arr [.arr [.num 33]] }

/-- The request `post_feedback_payload` hands to `self.request` for
dataMartId "dm1", bindingId "b1", subscriptionId "s1", one row of values and
no `fields`. -/
def sampleFeedbackRequest : Request :=
  { method := "POST"
    url := "/v1/data_marts/dm1/feedback_payloads"
    headers := []
    body := some (.obj [("binding_id", .str "b1"), ("subscription_id", .str "s1"),
      ("values", .arr [.arr [.num 1]]), ("fields", .null)]) }

/-- The request `fairness_monitoring_debias` hands to `self.request` when the
caller overrides the transaction header: the caller-supplied value replaced
the derived one. -/
def sampleDebiasRequest : Request :=
  { method := "POST"
    url := "/v1/data_marts/dm1/service_bindings/b1/subscriptions/s1/deployments/d1/online"
    headers := [("X-Global-Transaction-Id", some "tx-caller")]
    body := some (.obj [("fields", .arr [.str "age"]), ("values", .arr [.arr [.num 33]])]) }

/-- The request `fairness_monitoring_debias` hands to `self.request` with
transaction id "tx-1" and no caller header override. -/
def sampleDebiasTidRequest : Request :=
  { method := "POST"
    url := "/v1/data_marts/dm1/service_bindings/b1/subscriptions/s1/deployments/d1/online"
    headers := [("X-Global-Transaction-Id", some "tx-1")]
    body := some (.obj [("fields", .arr [.str "age"]), ("values", .arr [.arr [.num 33]])]) }

/-- The request `fairness_monitoring_debias` hands to `self.request` with no
transaction id and no caller header override: the header key is still present,
mapped to Python None. -/
def sampleDebiasNoTidRequest : Request :=
  { method := "POST"
    url := "/v1/data_marts/dm1/service_bindings/b1/subscriptions/s1/deployments/d1/online"
    headers := [("X-Global-Transaction-Id", none)]
    body := some (.obj [("fields", .arr [.str "age"]), ("values", .arr [.arr [.num 33]])]) }

/-! ### Basic lemmas about the dictionary and codec combinators -/

theorem lookupKey_append (l1 l2 : List (String × α)) (k : String) :
    lookupKey (l1 ++ l2) k = (lookupKey l1 k).or (lookupKey l2 k) := by
  induction l1 with
  | nil => simp [lookupKey]
  | cons p tl ih => by_cases h : p.1 = k <;> simp [lookupKey, h, ih]

theorem lookupKey_optField_ne {k' k : String} (h : k' ≠ k) (v : Json) :
    lookupKey (optField k' v) k = none := by
  by_cases hv : v.isNull <;> simp [optField, lookupKey, hv, h]

theorem lookupKey_optField_self (k : String) (v : Json) :
    lookupKey (optField k v) k = if v.isNull then none else some v := by
  by_cases hv : v.isNull <;> simp [optField, lookupKey, hv]

theorem lookupKey_optSub_ne {k' k : String} (h : k' ≠ k) (o : Option Json) :
    lookupKey (optSub k' o) k = none := by
  cases o <;> simp [optSub, lookupKey, h]

theorem lookupKey_optSub_self (k : String) (o : Option Json) :
    lookupKey (optSub k o) k = o := by
  cases o <;> simp [optSub, lookupKey]

theorem optField_getD (k : String) (v : Json) :
    (lookupKey (optField k v) k).getD .null = v := by
  cases v <;> simp [optField, lookupKey, Json.isNull]

theorem mapExcept_roundtrip {dec : Json → Except DecodeError α} {enc : α → Json}
    (h : ∀ x, dec (enc x) = .ok x) (l : List α) :
    mapExcept dec (l.map enc) = .ok l := by
  induction l with
  | nil => simp [mapExcept]
  | cons x xs ih => simp [mapExcept, h, ih]

theorem decodeOpt_roundtrip {dec : Json → Except DecodeError α} {enc : α → Json}
    (h : ∀ x, dec (enc x) = .ok x) (o : Option α) :
    decodeOpt dec (o.map enc) = .ok o := by
  cases o <;> simp [decodeOpt, h, Except.map]

theorem decodeOptList_roundtrip {dec : Json → Except DecodeError α} {enc : α → Json}
    (h : ∀ x, dec (enc x) = .ok x) (o : Option (List α)) :
    decodeOpt (decodeJsonList dec) (o.map fun l => Json.arr (l.map enc)) = .ok o := by
  cases o <;> simp [decodeOpt, decodeJsonList, mapExcept_roundtrip h, Except.map]

theorem decodeReqSub_roundtrip {dec : Json → Except DecodeError α} {enc : α → Json}
    (h : ∀ x, dec (enc x) = .ok x) {o : Option α} (ho : o.isSome = true)
    (field record : String) :
    decodeReqSub dec field record (o.map enc) = .ok o := by
  cases o with
  | none => simp at ho
  | some x => simp [decodeReqSub, h, Except.map]

/-! ### Round-trip lemmas, one per record type -/

theorem rt_AssetDeployment (r : ExplanationTaskResponseEntityAssetDeployment) :
    ExplanationTaskResponseEntityAssetDeployment._from_dict r._to_dict = .ok r := by
  simp +decide [ExplanationTaskResponseEntityAssetDeployment._from_dict,
    ExplanationTaskResponseEntityAssetDeployment._to_dict,
    lookupKey_append, lookupKey_optField_ne, optField_getD]

theorem rt_Asset (r : ExplanationTaskResponseEntityAsset) :
    ExplanationTaskResponseEntityAsset._from_dict r._to_dict = .ok r := by
  simp +decide [ExplanationTaskResponseEntityAsset._from_dict,
    ExplanationTaskResponseEntityAsset._to_dict,
    lookupKey_append, lookupKey_optField_ne, lookupKey_optSub_ne, lookupKey_optSub_self,
    optField_getD, decodeOpt_roundtrip rt_AssetDeployment]
  rfl

theorem getD_ite_null (v : Json) :
    (if v.isNull then none else some v).getD .null = v := by
  cases v <;> simp [Json.isNull]

theorem rt_FeatureRange (r : ExplanationTaskResponseEntityExplanationFeatureFeatureRange) :
    ExplanationTaskResponseEntityExplanationFeatureFeatureRange._from_dict r._to_dict =
      .ok r := by
  simp +decide [ExplanationTaskResponseEntityExplanationFeatureFeatureRange._from_dict,
    ExplanationTaskResponseEntityExplanationFeatureFeatureRange._to_dict,
    lookupKey_append, lookupKey_optField_ne, optField_getD]

theorem rt_ExplanationFeature (r : ExplanationTaskResponseEntityExplanationFeature) :
    ExplanationTaskResponseEntityExplanationFeature._from_dict r._to_dict = .ok r := by
  simp +decide [ExplanationTaskResponseEntityExplanationFeature._from_dict,
    ExplanationTaskResponseEntityExplanationFeature._to_dict,
    lookupKey_append, lookupKey_optField_ne, lookupKey_optSub_ne, lookupKey_optSub_self,
    optField_getD, decodeOpt_roundtrip rt_FeatureRange]
  rfl

theorem rt_InputFeature (r : ExplanationTaskResponseEntityInputFeature) :
    ExplanationTaskResponseEntityInputFeature._from_dict r._to_dict = .ok r := by
  simp +decide [ExplanationTaskResponseEntityInputFeature._from_dict,
    ExplanationTaskResponseEntityInputFeature._to_dict,
    lookupKey_append, lookupKey_optField_ne, optField_getD]

theorem rt_Prediction (r : ExplanationTaskResponseEntityPrediction) :
    ExplanationTaskResponseEntityPrediction._from_dict r._to_dict = .ok r := by
  simp +decide [ExplanationTaskResponseEntityPrediction._from_dict,
    ExplanationTaskResponseEntityPrediction._to_dict,
    lookupKey_append, lookupKey_optField_ne, lookupKey_optSub_ne, lookupKey_optSub_self,
    optField_getD, decodeOptList_roundtrip rt_ExplanationFeature]
  rfl

theorem rt_ContrastiveExplanation (r : ExplanationTaskResponseEntityContrastiveExplanation) :
    ExplanationTaskResponseEntityContrastiveExplanation._from_dict r._to_dict = .ok r := by
  simp +decide [ExplanationTaskResponseEntityContrastiveExplanation._from_dict,
    ExplanationTaskResponseEntityContrastiveExplanation._to_dict,
    lookupKey_append, lookupKey_optSub_ne, lookupKey_optSub_self,
    decodeOptList_roundtrip rt_ExplanationFeature]
  rfl

theorem rt_Status (r : ExplanationTaskResponseEntityStatus) :
    ExplanationTaskResponseEntityStatus._from_dict r._to_dict = .ok r := by
  simp +decide [ExplanationTaskResponseEntityStatus._from_dict,
    ExplanationTaskResponseEntityStatus._to_dict,
    lookupKey_append, lookupKey_optField_ne, optField_getD]

theorem rt_Entity (r : ExplanationTaskResponseEntity) (hs : r.status.isSome = true) :
    ExplanationTaskResponseEntity._from_dict r._to_dict = .ok r := by
  obtain ⟨s, a, ift, p, ce⟩ := r
  cases s with
  | none => simp at hs
  | some s =>
    simp +decide [ExplanationTaskResponseEntity._from_dict,
      ExplanationTaskResponseEntity._to_dict,
      lookupKey_append, lookupKey_optSub_ne, lookupKey_optSub_self,
      decodeReqSub, Except.map, rt_Status,
      decodeOpt_roundtrip rt_Asset,
      decodeOptList_roundtrip rt_InputFeature,
      decodeOptList_roundtrip rt_Prediction,
      decodeOpt_roundtrip rt_ContrastiveExplanation]
    rfl

theorem rt_Metadata (r : ExplanationTaskResponseMetadata) (h1 : r.id.isNull = false)
    (h2 : r.created_by.isNull = false) (h3 : r.created_at.isNull = false) :
    ExplanationTaskResponseMetadata._from_dict r._to_dict = .ok r := by
  simp +decide [ExplanationTaskResponseMetadata._from_dict,
    ExplanationTaskResponseMetadata._to_dict,
    lookupKey_append, lookupKey_optField_ne, lookupKey_optField_self, getD_ite_null,
    reqField, h1, h2, h3]
  rfl

theorem rt_FairnessMonitoringRemediationResponse (r : FairnessMonitoringRemediationResponse)
    (h1 : r.fields.isNull = false) (h2 : r.values.isNull = false) :
    FairnessMonitoringRemediationResponse._from_dict r._to_dict = .ok r := by
  simp +decide [FairnessMonitoringRemediationResponse._from_dict,
    FairnessMonitoringRemediationResponse._to_dict,
    lookupKey_append, lookupKey_optField_ne, lookupKey_optField_self,
    reqField, h1, h2]
  rfl

theorem rt_Get (r : GetExplanationTaskResponse) (m : ExplanationTaskResponseMetadata)
    (e : ExplanationTaskResponseEntity) (hm : r.metadata = some m) (he : r.entity = some e)
    (h1 : m.id.isNull = false) (h2 : m.created_by.isNull = false)
    (h3 : m.created_at.isNull = false) (hs : e.status.isSome = true) :
    GetExplanationTaskResponse._from_dict r._to_dict = .ok r := by
  obtain ⟨rm, re⟩ := r
  simp only at hm he
  subst hm he
  simp +decide [GetExplanationTaskResponse._from_dict, GetExplanationTaskResponse._to_dict,
    lookupKey_append, lookupKey_optSub_ne, lookupKey_optSub_self,
    decodeReqSub, Except.map, rt_Metadata m h1 h2 h3, rt_Entity e hs]
  rfl

theorem rt_PostStatus (r : PostExplanationTaskResponseEntityStatus) :
    PostExplanationTaskResponseEntityStatus._from_dict r._to_dict = .ok r := by
  simp +decide [PostExplanationTaskResponseEntityStatus._from_dict,
    PostExplanationTaskResponseEntityStatus._to_dict, optField_getD]

theorem rt_PostEntity (r : PostExplanationTaskResponseEntity) (hs : r.status.isSome = true) :
    PostExplanationTaskResponseEntity._from_dict r._to_dict = .ok r := by
  obtain ⟨s⟩ := r
  cases s with
  | none => simp at hs
  | some s =>
    simp +decide [PostExplanationTaskResponseEntity._from_dict,
      PostExplanationTaskResponseEntity._to_dict,
      lookupKey_optSub_self, decodeReqSub, Except.map, rt_PostStatus]
    rfl

theorem rt_Post (r : PostExplanationTaskResponse) (m : ExplanationTaskResponseMetadata)
    (e : PostExplanationTaskResponseEntity) (hm : r.metadata = some m) (he : r.entity = some e)
    (h1 : m.id.isNull = false) (h2 : m.created_by.isNull = false)
    (h3 : m.created_at.isNull = false) (hs : e.status.isSome = true) :
    PostExplanationTaskResponse._from_dict r._to_dict = .ok r := by
  obtain ⟨rm, re⟩ := r
  simp only at hm he
  subst hm he
  simp +decide [PostExplanationTaskResponse._from_dict, PostExplanationTaskResponse._to_dict,
    lookupKey_append, lookupKey_optSub_ne, lookupKey_optSub_self,
    decodeReqSub, Except.map, rt_Metadata m h1 h2 h3, rt_PostEntity e hs]
  rfl

theorem isNull_null : (Json.null).isNull = true := rfl

theorem isNull_bool (b : Bool) : (Json.bool b).isNull = false := rfl

theorem isNull_num (n : Int) : (Json.num n).isNull = false := rfl

theorem isNull_str (s : String) : (Json.str s).isNull = false := rfl

theorem isNull_arr (l : List Json) : (Json.arr l).isNull = false := rfl

theorem isNull_obj (kvs : List (String × Json)) : (Json.obj kvs).isNull = false := rfl

theorem mem_optField_not_null {p : String × Json} {k : String} {v : Json}
    (hp : p ∈ optField k v) : p.2.isNull = false := by
  unfold optField at hp
  cases hv : v.isNull with
  | true => simp [hv] at hp
  | false =>
    simp [hv] at hp
    rw [hp]
    exact hv

theorem mem_optSub_map_not_null {p : String × Json} {k : String} {o : Option α}
    {enc : α → Json} (hp : p ∈ optSub k (o.map enc))
    (he : ∀ x, (enc x).isNull = false) : p.2.isNull = false := by
  cases o with
  | none => simp [optSub] at hp
  | some x =>
    simp [optSub, Option.map_some] at hp
    rw [hp]
    exact he x

theorem exceptBind_ok (a : α) (f : α → Except ε β) :
    (Except.ok a >>= f : Except ε β) = f a := rfl

theorem exceptBind_error (e : ε) (f : α → Except ε β) :
    (Except.error e >>= f : Except ε β) = Except.error e := rfl

theorem lookupKey_map_update (base extra : List (String × α)) (k : String) :
    lookupKey (base.map fun p => (p.1, (lookupKey extra p.1).getD p.2)) k =
      (lookupKey base k).map fun v => (lookupKey extra k).getD v := by
  induction base with
  | nil => simp [lookupKey]
  | cons p tl ih => by_cases h : p.1 = k <;> simp [lookupKey, h, ih]

theorem lookupKey_filter_not_in_base (base extra : List (String × α)) (k : String)
    (hb : lookupKey base k = none) :
    lookupKey (extra.filter fun p => (lookupKey base p.1).isNone) k =
      lookupKey extra k := by
  induction extra with
  | nil => simp
  | cons q tl ih =>
    by_cases h : q.1 = k
    · rw [List.filter_cons, h]
      simp [hb, lookupKey, h]
    · rw [List.filter_cons]
      cases hq : (lookupKey base q.1).isNone <;> simp [lookupKey, h, ih]

/-- Lookup through a Python `dict.update`: the extra (caller) value wins on a
key collision, the base value survives otherwise. -/
theorem lookupKey_dictUpdate (base extra : List (String × α)) (k : String) :
    lookupKey (dictUpdate base extra) k = (lookupKey extra k).or (lookupKey base k) := by
  unfold dictUpdate
  rw [lookupKey_append, lookupKey_map_update]
  cases hb : lookupKey base k with
  | none => simp [lookupKey_filter_not_in_base base extra k hb]
  | some v => cases he : lookupKey extra k <;> simp [he]

/-! ### Claim theorems -/

/-- C2: for every record type, decoding the encoding of any validly-constructed
record — all its required fields, recursively, non-absent (not Python `None`) —
returns a record equal to the original: `decode(encode(r)) == r`. -/
theorem c2_decode_encode_roundtrip :
    (∀ r : ExplanationTaskResponseEntityAssetDeployment,
      ExplanationTaskResponseEntityAssetDeployment._from_dict r._to_dict = .ok r) ∧
    (∀ r : ExplanationTaskResponseEntityAsset,
      ExplanationTaskResponseEntityAsset._from_dict r._to_dict = .ok r) ∧
    (∀ r : ExplanationTaskResponseEntityExplanationFeatureFeatureRange,
      ExplanationTaskResponseEntityExplanationFeatureFeatureRange._from_dict r._to_dict =
        .ok r) ∧
    (∀ r : ExplanationTaskResponseEntityExplanationFeature,
      ExplanationTaskResponseEntityExplanationFeature._from_dict r._to_dict = .ok r) ∧
    (∀ r : ExplanationTaskResponseEntityInputFeature,
      ExplanationTaskResponseEntityInputFeature._from_dict r._to_dict = .ok r) ∧
    (∀ r : ExplanationTaskResponseEntityPrediction,
      ExplanationTaskResponseEntityPrediction._from_dict r._to_dict = .ok r) ∧
    (∀ r : ExplanationTaskResponseEntityContrastiveExplanation,
      ExplanationTaskResponseEntityContrastiveExplanation._from_dict r._to_dict = .ok r) ∧
    (∀ r : ExplanationTaskResponseEntityStatus,
      ExplanationTaskResponseEntityStatus._from_dict r._to_dict = .ok r) ∧
    (∀ r : ExplanationTaskResponseEntity, r.status.isSome = true →
      ExplanationTaskResponseEntity._from_dict r._to_dict = .ok r) ∧
    (∀ r : ExplanationTaskResponseMetadata, r.id.isNull = false →
      r.created_by.isNull = false → r.created_at.isNull = false →
      ExplanationTaskResponseMetadata._from_dict r._to_dict = .ok r) ∧
    (∀ r : FairnessMonitoringRemediationResponse, r.fields.isNull = false →
      r.values.isNull = false →
      FairnessMonitoringRemediationResponse._from_dict r._to_dict = .ok r) ∧
    (∀ (r : GetExplanationTaskResponse) (m : ExplanationTaskResponseMetadata)
      (e : ExplanationTaskResponseEntity), r.metadata = some m → r.entity = some e →
      m.id.isNull = false → m.created_by.isNull = false → m.created_at.isNull = false →
      e.status.isSome = true →
      GetExplanationTaskResponse._from_dict r._to_dict = .ok r) ∧
    (∀ r : PostExplanationTaskResponseEntityStatus,
      PostExplanationTaskResponseEntityStatus._from_dict r._to_dict = .ok r) ∧
    (∀ r : PostExplanationTaskResponseEntity, r.status.isSome = true →
      PostExplanationTaskResponseEntity._from_dict r._to_dict = .ok r) ∧
    (∀ (r : PostExplanationTaskResponse) (m : ExplanationTaskResponseMetadata)
      (e : PostExplanationTaskResponseEntity), r.metadata = some m → r.entity = some e →
      m.id.isNull = false → m.created_by.isNull = false → m.created_at.isNull = false →
      e.status.isSome = true →
      PostExplanationTaskResponse._from_dict r._to_dict = .ok r) :=
  ⟨rt_AssetDeployment, rt_Asset, rt_FeatureRange, rt_ExplanationFeature, rt_InputFeature,
    rt_Prediction, rt_ContrastiveExplanation, rt_Status, rt_Entity, rt_Metadata,
    rt_FairnessMonitoringRemediationResponse, rt_Get, rt_PostStatus, rt_PostEntity, rt_Post⟩

/-- Witness for C2: the hypothesis-bearing conjuncts evaluated at concrete
validly-constructed records. -/
theorem c2_decode_encode_roundtrip_witness :
    (ExplanationTaskResponseEntity._from_dict sampleEntity._to_dict = .ok sampleEntity) ∧
    (ExplanationTaskResponseMetadata._from_dict sampleMetadata._to_dict =
      .ok sampleMetadata) ∧
    (FairnessMonitoringRemediationResponse._from_dict sampleFairness._to_dict =
      .ok sampleFairness) ∧
    (GetExplanationTaskResponse._from_dict sampleGet._to_dict = .ok sampleGet) ∧
    (PostExplanationTaskResponseEntity._from_dict samplePostEntity._to_dict =
      .ok samplePostEntity) ∧
    (PostExplanationTaskResponse._from_dict samplePost._to_dict = .ok samplePost) :=
  ⟨c2_decode_encode_roundtrip.2.2.2.2.2.2.2.2.1 sampleEntity rfl,
   c2_decode_encode_roundtrip.2.2.2.2.2.2.2.2.2.1 sampleMetadata rfl rfl rfl,
   c2_decode_encode_roundtrip.2.2.2.2.2.2.2.2.2.2.1 sampleFairness rfl rfl,
   c2_decode_encode_roundtrip.2.2.2.2.2.2.2.2.2.2.2.1 sampleGet sampleMetadata sampleEntity
     rfl rfl rfl rfl rfl rfl,
   c2_decode_encode_roundtrip.2.2.2.2.2.2.2.2.2.2.2.2.2.1 samplePostEntity rfl,
   c2_decode_encode_roundtrip.2.2.2.2.2.2.2.2.2.2.2.2.2.2 samplePost sampleMetadata
     samplePostEntity rfl rfl rfl rfl rfl rfl⟩

/-- C4: for every record type, decoding a JSON object missing a required field
fails with the `MissingRequiredField` error naming the absent field and the
enclosing record type (the textually first missing required field, in source
check order), while decoding with all required fields present (nested values
decoding successfully) and arbitrary unknown extra keys succeeds and ignores
the extras.  Per type: the missing-required conjuncts, a success conjunct and
an extras-ignored conjunct. -/
theorem c4_required_field_enforcement :
    (∀ kvs, ExplanationTaskResponseEntityAssetDeployment._from_dict (.obj kvs) =
      .ok { id := (lookupKey kvs "id").getD .null,
            name := (lookupKey kvs "name").getD .null }) ∧
    (∀ kvs ek ev, ek ∉ (["id", "name"] : List String) →
      ExplanationTaskResponseEntityAssetDeployment._from_dict (.obj (kvs ++ [(ek, ev)])) =
        ExplanationTaskResponseEntityAssetDeployment._from_dict (.obj kvs)) ∧
    (∀ kvs dep, decodeOpt ExplanationTaskResponseEntityAssetDeployment._from_dict
        (lookupKey kvs "deployment") = .ok dep →
      ExplanationTaskResponseEntityAsset._from_dict (.obj kvs) =
        .ok { id := (lookupKey kvs "id").getD .null,
              name := (lookupKey kvs "name").getD .null,
              type := (lookupKey kvs "type").getD .null, deployment := dep }) ∧
    (∀ kvs ek ev, ek ∉ (["id", "name", "type", "deployment"] : List String) →
      ExplanationTaskResponseEntityAsset._from_dict (.obj (kvs ++ [(ek, ev)])) =
        ExplanationTaskResponseEntityAsset._from_dict (.obj kvs)) ∧
    (∀ kvs, ExplanationTaskResponseEntityExplanationFeatureFeatureRange._from_dict
        (.obj kvs) =
      .ok { min := (lookupKey kvs "min").getD .null,
            min_inclusive := (lookupKey kvs "min_inclusive").getD .null,
            max := (lookupKey kvs "max").getD .null,
            max_inclusive := (lookupKey kvs "max_inclusive").getD .null }) ∧
    (∀ kvs ek ev, ek ∉ (["min", "min_inclusive", "max", "max_inclusive"] : List String) →
      ExplanationTaskResponseEntityExplanationFeatureFeatureRange._from_dict
          (.obj (kvs ++ [(ek, ev)])) =
        ExplanationTaskResponseEntityExplanationFeatureFeatureRange._from_dict
          (.obj kvs)) ∧
    (∀ kvs fr, decodeOpt
        ExplanationTaskResponseEntityExplanationFeatureFeatureRange._from_dict
        (lookupKey kvs "feature_range") = .ok fr →
      ExplanationTaskResponseEntityExplanationFeature._from_dict (.obj kvs) =
        .ok { feature_name := (lookupKey kvs "feature_name").getD .null,
              weight := (lookupKey kvs "weight").getD .null,
              importance := (lookupKey kvs "importance").getD .null,
              feature_value := (lookupKey kvs "feature_value").getD .null,
              feature_range := fr }) ∧
    (∀ kvs ek ev, ek ∉ (["feature_name", "weight", "importance", "feature_value",
        "feature_range"] : List String) →
      ExplanationTaskResponseEntityExplanationFeature._from_dict (.obj (kvs ++ [(ek, ev)])) =
        ExplanationTaskResponseEntityExplanationFeature._from_dict (.obj kvs)) ∧
    (∀ kvs, ExplanationTaskResponseEntityInputFeature._from_dict (.obj kvs) =
      .ok { name := (lookupKey kvs "name").getD .null,
            value := (lookupKey kvs "value").getD .null,
            feature_type := (lookupKey kvs "feature_type").getD .null }) ∧
    (∀ kvs ek ev, ek ∉ (["name", "value", "feature_type"] : List String) →
      ExplanationTaskResponseEntityInputFeature._from_dict (.obj (kvs ++ [(ek, ev)])) =
        ExplanationTaskResponseEntityInputFeature._from_dict (.obj kvs)) ∧
    (∀ kvs ef, decodeOpt
        (decodeJsonList ExplanationTaskResponseEntityExplanationFeature._from_dict)
        (lookupKey kvs "explanation_features") = .ok ef →
      ExplanationTaskResponseEntityPrediction._from_dict (.obj kvs) =
        .ok { value := (lookupKey kvs "value").getD .null,
              probability := (lookupKey kvs "probability").getD .null,
              explanation_features := ef }) ∧
    (∀ kvs ek ev, ek ∉ (["value", "probability", "explanation_features"] : List String) →
      ExplanationTaskResponseEntityPrediction._from_dict (.obj (kvs ++ [(ek, ev)])) =
        ExplanationTaskResponseEntityPrediction._from_dict (.obj kvs)) ∧
    (∀ kvs pos neg, decodeOpt
        (decodeJsonList ExplanationTaskResponseEntityExplanationFeature._from_dict)
        (lookupKey kvs "pertinent_positive_features") = .ok pos →
      decodeOpt
        (decodeJsonList ExplanationTaskResponseEntityExplanationFeature._from_dict)
        (lookupKey kvs "pertinent_negative_features") = .ok neg →
      ExplanationTaskResponseEntityContrastiveExplanation._from_dict (.obj kvs) =
        .ok { pertinent_positive_features := pos, pertinent_negative_features := neg }) ∧
    (∀ kvs ek ev, ek ∉ (["pertinent_positive_features",
        "pertinent_negative_features"] : List String) →
      ExplanationTaskResponseEntityContrastiveExplanation._from_dict
          (.obj (kvs ++ [(ek, ev)])) =
        ExplanationTaskResponseEntityContrastiveExplanation._from_dict (.obj kvs)) ∧
    (∀ kvs, ExplanationTaskResponseEntityStatus._from_dict (.obj kvs) =
      .ok { state := (lookupKey kvs "state").getD .null,
            lime_state := (lookupKey kvs "lime_state").getD .null,
            cem_state := (lookupKey kvs "cem_state").getD .null }) ∧
    (∀ kvs ek ev, ek ∉ (["state", "lime_state", "cem_state"] : List String) →
      ExplanationTaskResponseEntityStatus._from_dict (.obj (kvs ++ [(ek, ev)])) =
        ExplanationTaskResponseEntityStatus._from_dict (.obj kvs)) ∧
    (∀ kvs, lookupKey kvs "status" = none →
      ExplanationTaskResponseEntity._from_dict (.obj kvs) =
        .error (.missingRequiredField "status" "ExplanationTaskResponseEntity")) ∧
    (∀ kvs vs s a ifs pr ce, lookupKey kvs "status" = some vs →
      ExplanationTaskResponseEntityStatus._from_dict vs = .ok s →
      decodeOpt ExplanationTaskResponseEntityAsset._from_dict
        (lookupKey kvs "asset") = .ok a →
      decodeOpt (decodeJsonList ExplanationTaskResponseEntityInputFeature._from_dict)
        (lookupKey kvs "input_features") = .ok ifs →
      decodeOpt (decodeJsonList ExplanationTaskResponseEntityPrediction._from_dict)
        (lookupKey kvs "predictions") = .ok pr →
      decodeOpt ExplanationTaskResponseEntityContrastiveExplanation._from_dict
        (lookupKey kvs "contrastive_explanation") = .ok ce →
      ExplanationTaskResponseEntity._from_dict (.obj kvs) =
        .ok { status := some s, asset := a, input_features := ifs, predictions := pr,
              contrastive_explanation := ce }) ∧
    (∀ kvs ek ev, ek ∉ (["status", "asset", "input_features", "predictions",
        "contrastive_explanation"] : List String) →
      ExplanationTaskResponseEntity._from_dict (.obj (kvs ++ [(ek, ev)])) =
        ExplanationTaskResponseEntity._from_dict (.obj kvs)) ∧
    (∀ kvs, lookupKey kvs "id" = none →
      ExplanationTaskResponseMetadata._from_dict (.obj kvs) =
        .error (.missingRequiredField "id" "ExplanationTaskResponseMetadata")) ∧
    (∀ kvs v1, lookupKey kvs "id" = some v1 → lookupKey kvs "created_by" = none →
      ExplanationTaskResponseMetadata._from_dict (.obj kvs) =
        .error (.missingRequiredField "created_by" "ExplanationTaskResponseMetadata")) ∧
    (∀ kvs v1 v2, lookupKey kvs "id" = some v1 → lookupKey kvs "created_by" = some v2 →
      lookupKey kvs "created_at" = none →
      ExplanationTaskResponseMetadata._from_dict (.obj kvs) =
        .error (.missingRequiredField "created_at" "ExplanationTaskResponseMetadata")) ∧
    (∀ kvs v1 v2 v3, lookupKey kvs "id" = some v1 → lookupKey kvs "created_by" = some v2 →
      lookupKey kvs "created_at" = some v3 →
      ExplanationTaskResponseMetadata._from_dict (.obj kvs) =
        .ok { id := v1, created_by := v2, created_at := v3,
              updated_at := (lookupKey kvs "updated_at").getD .null }) ∧
    (∀ kvs ek ev, ek ∉ (["id", "created_by", "created_at", "updated_at"] : List String) →
      ExplanationTaskResponseMetadata._from_dict (.obj (kvs ++ [(ek, ev)])) =
        ExplanationTaskResponseMetadata._from_dict (.obj kvs)) ∧
    (∀ kvs, lookupKey kvs "fields" = none →
      FairnessMonitoringRemediationResponse._from_dict (.obj kvs) =
        .error (.missingRequiredField "fields" "FairnessMonitoringRemediationResponse")) ∧
    (∀ kvs v1, lookupKey kvs "fields" = some v1 → lookupKey kvs "values" = none →
      FairnessMonitoringRemediationResponse._from_dict (.obj kvs) =
        .error (.missingRequiredField "values" "FairnessMonitoringRemediationResponse")) ∧
    (∀ kvs v1 v2, lookupKey kvs "fields" = some v1 → lookupKey kvs "values" = some v2 →
      FairnessMonitoringRemediationResponse._from_dict (.obj kvs) =
        .ok { fields := v1, values := v2 }) ∧
    (∀ kvs ek ev, ek ∉ (["fields", "values"] : List String) →
      FairnessMonitoringRemediationResponse._from_dict (.obj (kvs ++ [(ek, ev)])) =
        FairnessMonitoringRemediationResponse._from_dict (.obj kvs)) ∧
    (∀ kvs, lookupKey kvs "metadata" = none →
      GetExplanationTaskResponse._from_dict (.obj kvs) =
        .error (.missingRequiredField "metadata" "GetExplanationTaskResponse")) ∧
    (∀ kvs vm m, lookupKey kvs "metadata" = some vm →
      ExplanationTaskResponseMetadata._from_dict vm = .ok m →
      lookupKey kvs "entity" = none →
      GetExplanationTaskResponse._from_dict (.obj kvs) =
        .error (.missingRequiredField "entity" "GetExplanationTaskResponse")) ∧
    (∀ kvs vm m ve e, lookupKey kvs "metadata" = some vm →
      ExplanationTaskResponseMetadata._from_dict vm = .ok m →
      lookupKey kvs "entity" = some ve →
      ExplanationTaskResponseEntity._from_dict ve = .ok e →
      GetExplanationTaskResponse._from_dict (.obj kvs) =
        .ok { metadata := some m, entity := some e }) ∧
    (∀ kvs ek ev, ek ∉ (["metadata", "entity"] : List String) →
      GetExplanationTaskResponse._from_dict (.obj (kvs ++ [(ek, ev)])) =
        GetExplanationTaskResponse._from_dict (.obj kvs)) ∧
    (∀ kvs, PostExplanationTaskResponseEntityStatus._from_dict (.obj kvs) =
      .ok { state := (lookupKey kvs "state").getD .null }) ∧
    (∀ kvs ek ev, ek ∉ (["state"] : List String) →
      PostExplanationTaskResponseEntityStatus._from_dict (.obj (kvs ++ [(ek, ev)])) =
        PostExplanationTaskResponseEntityStatus._from_dict (.obj kvs)) ∧
    (∀ kvs, lookupKey kvs "status" = none →
      PostExplanationTaskResponseEntity._from_dict (.obj kvs) =
        .error (.missingRequiredField "status" "PostExplanationTaskResponseEntity")) ∧
    (∀ kvs vs s, lookupKey kvs "status" = some vs →
      PostExplanationTaskResponseEntityStatus._from_dict vs = .ok s →
      PostExplanationTaskResponseEntity._from_dict (.obj kvs) =
        .ok { status := some s }) ∧
    (∀ kvs ek ev, ek ∉ (["status"] : List String) →
      PostExplanationTaskResponseEntity._from_dict (.obj (kvs ++ [(ek, ev)])) =
        PostExplanationTaskResponseEntity._from_dict (.obj kvs)) ∧
    (∀ kvs, lookupKey kvs "metadata" = none →
      PostExplanationTaskResponse._from_dict (.obj kvs) =
        .error (.missingRequiredField "metadata" "PostExplanationTaskResponse")) ∧
    (∀ kvs vm m, lookupKey kvs "metadata" = some vm →
      ExplanationTaskResponseMetadata._from_dict vm = .ok m →
      lookupKey kvs "entity" = none →
      PostExplanationTaskResponse._from_dict (.obj kvs) =
        .error (.missingRequiredField "entity" "PostExplanationTaskResponse")) ∧
    (∀ kvs vm m ve e, lookupKey kvs "metadata" = some vm →
      ExplanationTaskResponseMetadata._from_dict vm = .ok m →
      lookupKey kvs "entity" = some ve →
      PostExplanationTaskResponseEntity._from_dict ve = .ok e →
      PostExplanationTaskResponse._from_dict (.obj kvs) =
        .ok { metadata := some m, entity := some e }) ∧
    (∀ kvs ek ev, ek ∉ (["metadata", "entity"] : List String) →
      PostExplanationTaskResponse._from_dict (.obj (kvs ++ [(ek, ev)])) =
        PostExplanationTaskResponse._from_dict (.obj kvs)) := by
  refine ⟨fun kvs => rfl, ?_, ?_, ?_, fun kvs => rfl, ?_, ?_, ?_, fun kvs => rfl, ?_,
    ?_, ?_, ?_, ?_, fun kvs => rfl, ?_, ?_, ?_, ?_, ?_, ?_, ?_, ?_, ?_, ?_, ?_, ?_, ?_,
    ?_, ?_, ?_, ?_, fun kvs => rfl, ?_, ?_, ?_, ?_, ?_, ?_, ?_, ?_⟩
  · intro kvs ek ev hek
    simp only [List.mem_cons, List.not_mem_nil, or_false, not_or] at hek
    obtain ⟨h1, h2⟩ := hek
    simp [ExplanationTaskResponseEntityAssetDeployment._from_dict, lookupKey_append,
      lookupKey, h1, h2]
  · intro kvs dep h
    simp [ExplanationTaskResponseEntityAsset._from_dict, h, exceptBind_ok]
  · intro kvs ek ev hek
    simp only [List.mem_cons, List.not_mem_nil, or_false, not_or] at hek
    obtain ⟨h1, h2, h3, h4⟩ := hek
    simp [ExplanationTaskResponseEntityAsset._from_dict, lookupKey_append,
      lookupKey, h1, h2, h3, h4]
  · intro kvs ek ev hek
    simp only [List.mem_cons, List.not_mem_nil, or_false, not_or] at hek
    obtain ⟨h1, h2, h3, h4⟩ := hek
    simp [ExplanationTaskResponseEntityExplanationFeatureFeatureRange._from_dict,
      lookupKey_append, lookupKey, h1, h2, h3, h4]
  · intro kvs fr h
    simp [ExplanationTaskResponseEntityExplanationFeature._from_dict, h, exceptBind_ok]
  · intro kvs ek ev hek
    simp only [List.mem_cons, List.not_mem_nil, or_false, not_or] at hek
    obtain ⟨h1, h2, h3, h4, h5⟩ := hek
    simp [ExplanationTaskResponseEntityExplanationFeature._from_dict, lookupKey_append,
      lookupKey, h1, h2, h3, h4, h5]
  · intro kvs ek ev hek
    simp only [List.mem_cons, List.not_mem_nil, or_false, not_or] at hek
    obtain ⟨h1, h2, h3⟩ := hek
    simp [ExplanationTaskResponseEntityInputFeature._from_dict, lookupKey_append,
      lookupKey, h1, h2, h3]
  · intro kvs ef h
    simp [ExplanationTaskResponseEntityPrediction._from_dict, h, exceptBind_ok]
  · intro kvs ek ev hek
    simp only [List.mem_cons, List.not_mem_nil, or_false, not_or] at hek
    obtain ⟨h1, h2, h3⟩ := hek
    simp [ExplanationTaskResponseEntityPrediction._from_dict, lookupKey_append,
      lookupKey, h1, h2, h3]
  · intro kvs pos neg h1 h2
    simp [ExplanationTaskResponseEntityContrastiveExplanation._from_dict, h1, h2,
      exceptBind_ok]
  · intro kvs ek ev hek
    simp only [List.mem_cons, List.not_mem_nil, or_false, not_or] at hek
    obtain ⟨h1, h2⟩ := hek
    simp [ExplanationTaskResponseEntityContrastiveExplanation._from_dict,
      lookupKey_append, lookupKey, h1, h2]
  · intro kvs ek ev hek
    simp only [List.mem_cons, List.not_mem_nil, or_false, not_or] at hek
    obtain ⟨h1, h2, h3⟩ := hek
    simp [ExplanationTaskResponseEntityStatus._from_dict, lookupKey_append,
      lookupKey, h1, h2, h3]
  · intro kvs h
    simp [ExplanationTaskResponseEntity._from_dict, decodeReqSub, h, exceptBind_error]
  · intro kvs vs s a ifs pr ce h1 h2 h3 h4 h5 h6
    simp [ExplanationTaskResponseEntity._from_dict, decodeReqSub, h1, h2, h3, h4, h5, h6,
      Except.map, exceptBind_ok]
  · intro kvs ek ev hek
    simp only [List.mem_cons, List.not_mem_nil, or_false, not_or] at hek
    obtain ⟨h1, h2, h3, h4, h5⟩ := hek
    simp [ExplanationTaskResponseEntity._from_dict, lookupKey_append,
      lookupKey, h1, h2, h3, h4, h5]
  · intro kvs h
    simp [ExplanationTaskResponseMetadata._from_dict, reqField, h, exceptBind_error]
  · intro kvs v1 h1 h2
    simp [ExplanationTaskResponseMetadata._from_dict, reqField, h1, h2,
      exceptBind_ok, exceptBind_error]
  · intro kvs v1 v2 h1 h2 h3
    simp [ExplanationTaskResponseMetadata._from_dict, reqField, h1, h2, h3,
      exceptBind_ok, exceptBind_error]
  · intro kvs v1 v2 v3 h1 h2 h3
    simp [ExplanationTaskResponseMetadata._from_dict, reqField, h1, h2, h3, exceptBind_ok]
  · intro kvs ek ev hek
    simp only [List.mem_cons, List.not_mem_nil, or_false, not_or] at hek
    obtain ⟨h1, h2, h3, h4⟩ := hek
    simp [ExplanationTaskResponseMetadata._from_dict, lookupKey_append, lookupKey,
      h1, h2, h3, h4]
  · intro kvs h
    simp [FairnessMonitoringRemediationResponse._from_dict, reqField, h, exceptBind_error]
  · intro kvs v1 h1 h2
    simp [FairnessMonitoringRemediationResponse._from_dict, reqField, h1, h2,
      exceptBind_ok, exceptBind_error]
  · intro kvs v1 v2 h1 h2
    simp [FairnessMonitoringRemediationResponse._from_dict, reqField, h1, h2,
      exceptBind_ok]
  · intro kvs ek ev hek
    simp only [List.mem_cons, List.not_mem_nil, or_false, not_or] at hek
    obtain ⟨h1, h2⟩ := hek
    simp [FairnessMonitoringRemediationResponse._from_dict, lookupKey_append,
      lookupKey, h1, h2]
  · intro kvs h
    simp [GetExplanationTaskResponse._from_dict, decodeReqSub, h, exceptBind_error]
  · intro kvs vm m h1 h2 h3
    simp [GetExplanationTaskResponse._from_dict, decodeReqSub, h1, h2, h3,
      Except.map, exceptBind_ok, exceptBind_error]
  · intro kvs vm m ve e h1 h2 h3 h4
    simp [GetExplanationTaskResponse._from_dict, decodeReqSub, h1, h2, h3, h4,
      Except.map, exceptBind_ok]
  · intro kvs ek ev hek
    simp only [List.mem_cons, List.not_mem_nil, or_false, not_or] at hek
    obtain ⟨h1, h2⟩ := hek
    simp [GetExplanationTaskResponse._from_dict, lookupKey_append, lookupKey, h1, h2]
  · intro kvs ek ev hek
    simp only [List.mem_cons, List.not_mem_nil, or_false, not_or] at hek
    simp [PostExplanationTaskResponseEntityStatus._from_dict, lookupKey_append,
      lookupKey, hek]
  · intro kvs h
    simp [PostExplanationTaskResponseEntity._from_dict, decodeReqSub, h, exceptBind_error]
  · intro kvs vs s h1 h2
    simp [PostExplanationTaskResponseEntity._from_dict, decodeReqSub, h1, h2,
      Except.map, exceptBind_ok]
  · intro kvs ek ev hek
    simp only [List.mem_cons, List.not_mem_nil, or_false, not_or] at hek
    simp [PostExplanationTaskResponseEntity._from_dict, lookupKey_append,
      lookupKey, hek]
  · intro kvs h
    simp [PostExplanationTaskResponse._from_dict, decodeReqSub, h, exceptBind_error]
  · intro kvs vm m h1 h2 h3
    simp [PostExplanationTaskResponse._from_dict, decodeReqSub, h1, h2, h3,
      Except.map, exceptBind_ok, exceptBind_error]
  · intro kvs vm m ve e h1 h2 h3 h4
    simp [PostExplanationTaskResponse._from_dict, decodeReqSub, h1, h2, h3, h4,
      Except.map, exceptBind_ok]
  · intro kvs ek ev hek
    simp only [List.mem_cons, List.not_mem_nil, or_false, not_or] at hek
    obtain ⟨h1, h2⟩ := hek
    simp [PostExplanationTaskResponse._from_dict, lookupKey_append, lookupKey, h1, h2]

/-- Witness for C4: metadata without `id` fails naming `id`; a metadata object
with all required fields plus an unknown key decodes as without it and decodes
successfully; envelopes and entities missing their required nested fields fail
naming them; an entity with just a status decodes; a status object ignores an
unknown key. -/
theorem c4_required_field_enforcement_witness :
    (ExplanationTaskResponseMetadata._from_dict
        (.obj [("created_by", .str "u1"), ("created_at", .str "2018-01-01")]) =
      .error (.missingRequiredField "id" "ExplanationTaskResponseMetadata")) ∧
    (ExplanationTaskResponseMetadata._from_dict
        (.obj ([("id", .str "t1"), ("created_by", .str "u1"),
          ("created_at", .str "2018-01-01")] ++ [("some_future_key", .num 9)])) =
      ExplanationTaskResponseMetadata._from_dict
        (.obj [("id", .str "t1"), ("created_by", .str "u1"),
          ("created_at", .str "2018-01-01")])) ∧
    (ExplanationTaskResponseMetadata._from_dict
        (.obj [("id", .str "t1"), ("created_by", .str "u1"),
          ("created_at", .str "2018-01-01")]) =
      .ok { id := .str "t1", created_by := .str "u1", created_at := .str "2018-01-01",
            updated_at := .null }) ∧
    (GetExplanationTaskResponse._from_dict (.obj [("metadata", .obj [("id", .str "t1"),
        ("created_by", .str "u1"), ("created_at", .str "2018-01-01")])]) =
      .error (.missingRequiredField "entity" "GetExplanationTaskResponse")) ∧
    (ExplanationTaskResponseEntity._from_dict (.obj []) =
      .error (.missingRequiredField "status" "ExplanationTaskResponseEntity")) ∧
    (ExplanationTaskResponseEntity._from_dict (.obj [("status", .obj [])]) =
      .ok { status := some {} }) ∧
    (FairnessMonitoringRemediationResponse._from_dict (.obj [("fields", .arr [])]) =
      .error (.missingRequiredField "values" "FairnessMonitoringRemediationResponse")) ∧
    (PostExplanationTaskResponseEntity._from_dict (.obj []) =
      .error (.missingRequiredField "status" "PostExplanationTaskResponseEntity")) ∧
    (PostExplanationTaskResponse._from_dict (.obj []) =
      .error (.missingRequiredField "metadata" "PostExplanationTaskResponse")) ∧
    (ExplanationTaskResponseEntityStatus._from_dict
        (.obj ([("state", .str "ok")] ++ [("zzz", .num 1)])) =
      ExplanationTaskResponseEntityStatus._from_dict (.obj [("state", .str "ok")])) := by
  obtain ⟨c01, c02, c03, c04, c05, c06, c07, c08, c09, c10, c11, c12, c13, c14, c15,
    c16, c17, c18, c19, c20, c21, c22, c23, c24, c25, c26, c27, c28, c29, c30, c31,
    c32, c33, c34, c35, c36, c37, c38, c39, c40, c41⟩ := c4_required_field_enforcement
  exact ⟨c20 _ rfl,
    c24 _ "some_future_key" (.num 9) (by decide),
    c23 _ _ _ _ rfl rfl rfl,
    c30 _ _ { id := .str "t1", created_by := .str "u1", created_at := .str "2018-01-01" }
      rfl rfl rfl,
    c17 _ rfl,
    c18 _ _ {} none none none none rfl rfl rfl rfl rfl rfl,
    c26 _ (.arr []) rfl rfl,
    c35 _ rfl,
    c38 _ rfl,
    c16 _ "zzz" (.num 1) (by decide)⟩

/-- C5: every endpoint operation checks its declared required parameters in
source order and raises the `ValueError` naming the missing parameter before
any request is built (an `.error` result means `self.request` is never
reached, so zero network calls happen); in particular `post_feedback_payload`
with `values = None` and every other parameter valid fails naming `values`. -/
theorem c5_required_parameter_validation :
    (∀ b s v f kw, post_feedback_payload none b s v f kw =
      .error "data_mart_id must be provided") ∧
    (∀ dm s v f kw, post_feedback_payload (some dm) none s v f kw =
      .error "binding_id must be provided") ∧
    (∀ dm b v f kw, post_feedback_payload (some dm) (some b) none v f kw =
      .error "subscription_id must be provided") ∧
    (∀ dm b s f kw, post_feedback_payload (some dm) (some b) (some s) .null f kw =
      .error "values must be provided") ∧
    (∀ et kw, get_explanation_task none et kw =
      .error "data_mart_id must be provided") ∧
    (∀ dm kw, get_explanation_task (some dm) none kw =
      .error "explanation_task_id must be provided") ∧
    (∀ sid kw, post_explanation_task none sid kw =
      .error "data_mart_id must be provided") ∧
    (∀ dm kw, post_explanation_task (some dm) none kw =
      .error "scoring_id must be provided") ∧
    (∀ b s d fl v t kw, fairness_monitoring_debias none b s d fl v t kw =
      .error "data_mart_id must be provided") ∧
    (∀ dm s d fl v t kw, fairness_monitoring_debias (some dm) none s d fl v t kw =
      .error "binding_id must be provided") ∧
    (∀ dm b d fl v t kw, fairness_monitoring_debias (some dm) (some b) none d fl v t kw =
      .error "subscription_id must be provided") ∧
    (∀ dm b s fl v t kw,
      fairness_monitoring_debias (some dm) (some b) (some s) none fl v t kw =
      .error "deployment_id must be provided") ∧
    (∀ dm b s d v t kw,
      fairness_monitoring_debias (some dm) (some b) (some s) (some d) .null v t kw =
      .error "fields must be provided") ∧
    (∀ dm b s d fl t kw, fl.isNull = false →
      fairness_monitoring_debias (some dm) (some b) (some s) (some d) fl .null t kw =
      .error "values must be provided") := by
  refine ⟨fun _ _ _ _ _ => rfl, fun _ _ _ _ _ => rfl, fun _ _ _ _ _ => rfl,
    fun _ _ _ _ _ => rfl, fun _ _ => rfl, fun _ _ => rfl, fun _ _ => rfl, fun _ _ => rfl,
    fun _ _ _ _ _ _ _ => rfl, fun _ _ _ _ _ _ _ => rfl, fun _ _ _ _ _ _ _ => rfl,
    fun _ _ _ _ _ _ _ => rfl, fun _ _ _ _ _ _ _ => rfl, ?_⟩
  intro dm b s d fl t kw hfl
  cases fl <;> first | rfl | simp [Json.isNull] at hfl

/-- Witness for C5: the values-after-fields conjunct evaluated with a concrete
non-null `fields` and `values = None`. -/
theorem c5_required_parameter_validation_witness :
    fairness_monitoring_debias (some "dm1") (some "b1") (some "s1") (some "d1")
      (.arr [.str "age"]) .null none none = .error "values must be provided" :=
  c5_required_parameter_validation.2.2.2.2.2.2.2.2.2.2.2.2.2
    "dm1" "b1" "s1" "d1" (.arr [.str "age"]) none none rfl

/-- C6: each endpoint operation's request URL is its fixed template with every
path parameter substituted percent-encoded, under the documented HTTP method;
in particular for dataMartId "dm1" the feedback URL is
/v1/data_marts/dm1/feedback_payloads. -/
theorem c6_url_templates :
    (∀ dm b s v f kw req,
      post_feedback_payload (some dm) (some b) (some s) v f kw = .ok req →
      req.method = "POST" ∧
      req.url = "/v1/data_marts/" ++ encode_path_var dm ++ "/feedback_payloads") ∧
    (∀ dm et kw req, get_explanation_task (some dm) (some et) kw = .ok req →
      req.method = "GET" ∧
      req.url = "/v1/data_marts/" ++ encode_path_var dm ++ "/explanation_tasks/" ++
        encode_path_var et) ∧
    (∀ dm sid kw req, post_explanation_task (some dm) (some sid) kw = .ok req →
      req.method = "POST" ∧
      req.url = "/v1/data_marts/" ++ encode_path_var dm ++ "/explanation_tasks") ∧
    (∀ dm b s d fl v t kw req,
      fairness_monitoring_debias (some dm) (some b) (some s) (some d) fl v t kw = .ok req →
      req.method = "POST" ∧
      req.url = "/v1/data_marts/" ++ encode_path_var dm ++ "/service_bindings/" ++
        encode_path_var b ++ "/subscriptions/" ++ encode_path_var s ++
        "/deployments/" ++ encode_path_var d ++ "/online") ∧
    (∀ b s v f kw req,
      post_feedback_payload (some "dm1") (some b) (some s) v f kw = .ok req →
      req.url = "/v1/data_marts/dm1/feedback_payloads") := by
  refine ⟨?_, ?_, ?_, ?_, ?_⟩
  · intro dm b s v f kw req h
    cases hv : v.isNull with
    | true => simp [post_feedback_payload, hv] at h
    | false =>
      simp [post_feedback_payload, hv] at h
      subst h
      exact ⟨rfl, rfl⟩
  · intro dm et kw req h
    simp [get_explanation_task] at h
    subst h
    exact ⟨rfl, rfl⟩
  · intro dm sid kw req h
    simp [post_explanation_task] at h
    subst h
    exact ⟨rfl, rfl⟩
  · intro dm b s d fl v t kw req h
    cases hfl : fl.isNull with
    | true => simp [fairness_monitoring_debias, hfl] at h
    | false =>
      cases hv : v.isNull with
      | true => simp [fairness_monitoring_debias, hfl, hv] at h
      | false =>
        simp [fairness_monitoring_debias, hfl, hv] at h
        subst h
        exact ⟨rfl, rfl⟩
  · intro b s v f kw req h
    cases hv : v.isNull with
    | true => simp [post_feedback_payload, hv] at h
    | false =>
      simp [post_feedback_payload, hv] at h
      subst h
      show "/v1/data_marts/" ++ encode_path_var "dm1" ++ "/feedback_payloads" =
        "/v1/data_marts/dm1/feedback_payloads"
      decide

/-- Witness for C6: the concrete feedback call for dataMartId "dm1" succeeds
with exactly the resolved URL. -/
theorem c6_url_templates_witness :
    (post_feedback_payload (some "dm1") (some "b1") (some "s1") (.arr [.arr [.num 1]])
      .null none = .ok sampleFeedbackRequest) ∧
    sampleFeedbackRequest.url = "/v1/data_marts/dm1/feedback_payloads" :=
  ⟨rfl, c6_url_templates.2.2.2.2 "b1" "s1" (.arr [.arr [.num 1]]) .null none
    sampleFeedbackRequest rfl⟩

/-- C7: operation-derived headers are merged with the caller-supplied header
override dictionary through `dict.update`, so the caller-supplied value wins on
every key collision. -/
theorem c7_caller_headers_win :
    (∀ dm b s d fl v t kw hv k req, lookupKey kw k = some hv →
      fairness_monitoring_debias (some dm) (some b) (some s) (some d) fl v t (some kw) =
        .ok req →
      lookupKey req.headers k = some hv) ∧
    (∀ dm b s v f kw hv k req, lookupKey kw k = some hv →
      post_feedback_payload (some dm) (some b) (some s) v f (some kw) = .ok req →
      lookupKey req.headers k = some hv) := by
  constructor
  · intro dm b s d fl v t kw hv k req hkw h
    cases hfl : fl.isNull with
    | true => simp [fairness_monitoring_debias, hfl] at h
    | false =>
      cases hval : v.isNull with
      | true => simp [fairness_monitoring_debias, hfl, hval] at h
      | false =>
        simp [fairness_monitoring_debias, hfl, hval] at h
        subst h
        simp [buildHeaders, lookupKey_dictUpdate, hkw]
  · intro dm b s v f kw hv k req hkw h
    cases hval : v.isNull with
    | true => simp [post_feedback_payload, hval] at h
    | false =>
      simp [post_feedback_payload, hval] at h
      subst h
      simp [buildHeaders, lookupKey_dictUpdate, hkw]

/-- Witness for C7: fairness debias with transactionId "tx-1" and a caller
override for X-Global-Transaction-Id carries the caller-supplied value. -/
theorem c7_caller_headers_win_witness :
    (fairness_monitoring_debias (some "dm1") (some "b1") (some "s1") (some "d1")
      (.arr [.str "age"]) (.arr [.arr [.num 33]]) (some "tx-1")
      (some [("X-Global-Transaction-Id", some "tx-caller")]) = .ok sampleDebiasRequest) ∧
    lookupKey sampleDebiasRequest.headers "X-Global-Transaction-Id" =
      some (some "tx-caller") :=
  ⟨rfl, c7_caller_headers_win.1 "dm1" "b1" "s1" "d1" (.arr [.str "age"])
    (.arr [.arr [.num 33]]) (some "tx-1") [("X-Global-Transaction-Id", some "tx-caller")]
    (some "tx-caller") "X-Global-Transaction-Id" sampleDebiasRequest rfl rfl⟩

/-- C8: a successful fairness debias call sends a JSON body holding exactly the
keys `fields` and `values`, and the transaction id — absent a caller header
override — travels only in the X-Global-Transaction-Id request header, never
as a body field. -/
theorem c8_fairness_body_exact :
    ∀ dm b s d fl v t kw req,
      fairness_monitoring_debias (some dm) (some b) (some s) (some d) fl v t kw = .ok req →
      req.body = some (.obj [("fields", fl), ("values", v)]) ∧
      (kw = none → lookupKey req.headers "X-Global-Transaction-Id" = some t) := by
  intro dm b s d fl v t kw req h
  cases hfl : fl.isNull with
  | true => simp [fairness_monitoring_debias, hfl] at h
  | false =>
    cases hval : v.isNull with
    | true => simp [fairness_monitoring_debias, hfl, hval] at h
    | false =>
      simp [fairness_monitoring_debias, hfl, hval] at h
      subst h
      refine ⟨rfl, ?_⟩
      rintro rfl
      simp [buildHeaders, lookupKey]

/-- Witness for C8: the concrete debias call with transactionId "tx-1" and no
header override: the body is exactly fields plus values, the transaction id
sits in the header. -/
theorem c8_fairness_body_exact_witness :
    (fairness_monitoring_debias (some "dm1") (some "b1") (some "s1") (some "d1")
      (.arr [.str "age"]) (.arr [.arr [.num 33]]) (some "tx-1") none =
      .ok sampleDebiasTidRequest) ∧
    sampleDebiasTidRequest.body =
      some (.obj [("fields", .arr [.str "age"]), ("values", .arr [.arr [.num 33]])]) ∧
    lookupKey sampleDebiasTidRequest.headers "X-Global-Transaction-Id" =
      some (some "tx-1") := by
  have h := c8_fairness_body_exact "dm1" "b1" "s1" "d1" (.arr [.str "age"])
    (.arr [.arr [.num 33]]) (some "tx-1") none sampleDebiasTidRequest rfl
  exact ⟨rfl, h.1, h.2 rfl⟩

/-- C9: whenever the caller supplies no override for it, the fairness debias
header dictionary passed to `self.request` contains the key
X-Global-Transaction-Id, mapped to the `x_global_transaction_id` argument —
in particular mapped to Python None when it was not supplied — rather than
being omitted. -/
theorem c9_transaction_header_always_present :
    ∀ dm b s d fl v t kw req,
      (∀ h, kw = some h → lookupKey h "X-Global-Transaction-Id" = none) →
      fairness_monitoring_debias (some dm) (some b) (some s) (some d) fl v t kw = .ok req →
      lookupKey req.headers "X-Global-Transaction-Id" = some t := by
  intro dm b s d fl v t kw req hkw h
  cases hfl : fl.isNull with
  | true => simp [fairness_monitoring_debias, hfl] at h
  | false =>
    cases hval : v.isNull with
    | true => simp [fairness_monitoring_debias, hfl, hval] at h
    | false =>
      simp [fairness_monitoring_debias, hfl, hval] at h
      subst h
      cases kw with
      | none => simp [buildHeaders, lookupKey]
      | some hs => simp [buildHeaders, lookupKey_dictUpdate, hkw hs rfl, lookupKey]

/-- Witness for C9: with no transaction id and no caller override, the header
dictionary still holds X-Global-Transaction-Id, mapped to None. -/
theorem c9_transaction_header_always_present_witness :
    (fairness_monitoring_debias (some "dm1") (some "b1") (some "s1") (some "d1")
      (.arr [.str "age"]) (.arr [.arr [.num 33]]) none none =
      .ok sampleDebiasNoTidRequest) ∧
    lookupKey sampleDebiasNoTidRequest.headers "X-Global-Transaction-Id" = some none :=
  ⟨rfl, c9_transaction_header_always_present "dm1" "b1" "s1" "d1" (.arr [.str "age"])
    (.arr [.arr [.num 33]]) none none sampleDebiasNoTidRequest
    (fun _ hh => nomatch hh) rfl⟩

/-- C10: for every record type with a nested-record (or list-of-records) field,
decoding a JSON object in which that field's key is present with a null value
hands null to the nested decoder (or iterates None), which raises the
TypeError-style error — not the structured MissingRequiredField error (and the
two are distinct).  Fields checked after other fields carry hypotheses that
those earlier fields decode successfully. -/
theorem c10_null_nested_value :
    (∀ kvs, lookupKey kvs "deployment" = some Json.null →
      ExplanationTaskResponseEntityAsset._from_dict (.obj kvs) = .error .typeError) ∧
    (∀ kvs, lookupKey kvs "feature_range" = some Json.null →
      ExplanationTaskResponseEntityExplanationFeature._from_dict (.obj kvs) =
        .error .typeError) ∧
    (∀ kvs, lookupKey kvs "explanation_features" = some Json.null →
      ExplanationTaskResponseEntityPrediction._from_dict (.obj kvs) =
        .error .typeError) ∧
    (∀ kvs, lookupKey kvs "pertinent_positive_features" = some Json.null →
      ExplanationTaskResponseEntityContrastiveExplanation._from_dict (.obj kvs) =
        .error .typeError) ∧
    (∀ kvs pos,
      decodeOpt (decodeJsonList ExplanationTaskResponseEntityExplanationFeature._from_dict)
        (lookupKey kvs "pertinent_positive_features") = .ok pos →
      lookupKey kvs "pertinent_negative_features" = some Json.null →
      ExplanationTaskResponseEntityContrastiveExplanation._from_dict (.obj kvs) =
        .error .typeError) ∧
    (∀ kvs, lookupKey kvs "status" = some Json.null →
      ExplanationTaskResponseEntity._from_dict (.obj kvs) = .error .typeError) ∧
    (∀ kvs vs s, lookupKey kvs "status" = some vs →
      ExplanationTaskResponseEntityStatus._from_dict vs = .ok s →
      lookupKey kvs "asset" = some Json.null →
      ExplanationTaskResponseEntity._from_dict (.obj kvs) = .error .typeError) ∧
    (∀ kvs vs s a, lookupKey kvs "status" = some vs →
      ExplanationTaskResponseEntityStatus._from_dict vs = .ok s →
      decodeOpt ExplanationTaskResponseEntityAsset._from_dict
        (lookupKey kvs "asset") = .ok a →
      lookupKey kvs "input_features" = some Json.null →
      ExplanationTaskResponseEntity._from_dict (.obj kvs) = .error .typeError) ∧
    (∀ kvs vs s a ifs, lookupKey kvs "status" = some vs →
      ExplanationTaskResponseEntityStatus._from_dict vs = .ok s →
      decodeOpt ExplanationTaskResponseEntityAsset._from_dict
        (lookupKey kvs "asset") = .ok a →
      decodeOpt (decodeJsonList ExplanationTaskResponseEntityInputFeature._from_dict)
        (lookupKey kvs "input_features") = .ok ifs →
      lookupKey kvs "predictions" = some Json.null →
      ExplanationTaskResponseEntity._from_dict (.obj kvs) = .error .typeError) ∧
    (∀ kvs vs s a ifs pr, lookupKey kvs "status" = some vs →
      ExplanationTaskResponseEntityStatus._from_dict vs = .ok s →
      decodeOpt ExplanationTaskResponseEntityAsset._from_dict
        (lookupKey kvs "asset") = .ok a →
      decodeOpt (decodeJsonList ExplanationTaskResponseEntityInputFeature._from_dict)
        (lookupKey kvs "input_features") = .ok ifs →
      decodeOpt (decodeJsonList ExplanationTaskResponseEntityPrediction._from_dict)
        (lookupKey kvs "predictions") = .ok pr →
      lookupKey kvs "contrastive_explanation" = some Json.null →
      ExplanationTaskResponseEntity._from_dict (.obj kvs) = .error .typeError) ∧
    (∀ kvs, lookupKey kvs "metadata" = some Json.null →
      GetExplanationTaskResponse._from_dict (.obj kvs) = .error .typeError) ∧
    (∀ kvs vm m, lookupKey kvs "metadata" = some vm →
      ExplanationTaskResponseMetadata._from_dict vm = .ok m →
      lookupKey kvs "entity" = some Json.null →
      GetExplanationTaskResponse._from_dict (.obj kvs) = .error .typeError) ∧
    (∀ kvs, lookupKey kvs "status" = some Json.null →
      PostExplanationTaskResponseEntity._from_dict (.obj kvs) = .error .typeError) ∧
    (∀ kvs, lookupKey kvs "metadata" = some Json.null →
      PostExplanationTaskResponse._from_dict (.obj kvs) = .error .typeError) ∧
    (∀ kvs vm m, lookupKey kvs "metadata" = some vm →
      ExplanationTaskResponseMetadata._from_dict vm = .ok m →
      lookupKey kvs "entity" = some Json.null →
      PostExplanationTaskResponse._from_dict (.obj kvs) = .error .typeError) ∧
    (∀ f r, DecodeError.typeError ≠ DecodeError.missingRequiredField f r) := by
  refine ⟨?_, ?_, ?_, ?_, ?_, ?_, ?_, ?_, ?_, ?_, ?_, ?_, ?_, ?_, ?_,
    fun f r h => DecodeError.noConfusion h⟩
  · intro kvs h
    simp [ExplanationTaskResponseEntityAsset._from_dict, h, decodeOpt,
      ExplanationTaskResponseEntityAssetDeployment._from_dict, Except.map,
      exceptBind_error]
  · intro kvs h
    simp [ExplanationTaskResponseEntityExplanationFeature._from_dict, h, decodeOpt,
      ExplanationTaskResponseEntityExplanationFeatureFeatureRange._from_dict,
      Except.map, exceptBind_error]
  · intro kvs h
    simp [ExplanationTaskResponseEntityPrediction._from_dict, h, decodeOpt,
      decodeJsonList, Except.map, exceptBind_error]
  · intro kvs h
    simp [ExplanationTaskResponseEntityContrastiveExplanation._from_dict, h, decodeOpt,
      decodeJsonList, Except.map, exceptBind_error]
  · intro kvs pos h1 h2
    simp only [ExplanationTaskResponseEntityContrastiveExplanation._from_dict, h1, h2,
      exceptBind_ok]
    simp [decodeOpt, decodeJsonList, Except.map, exceptBind_error]
  · intro kvs h
    simp [ExplanationTaskResponseEntity._from_dict, h, decodeReqSub,
      ExplanationTaskResponseEntityStatus._from_dict, Except.map, exceptBind_error]
  · intro kvs vs s h1 h2 h3
    simp [ExplanationTaskResponseEntity._from_dict, decodeReqSub, h1, h2, h3, decodeOpt,
      ExplanationTaskResponseEntityAsset._from_dict, Except.map, exceptBind_ok,
      exceptBind_error]
  · intro kvs vs s a h1 h2 h3 h4
    simp only [ExplanationTaskResponseEntity._from_dict, decodeReqSub, h1, h2, h3, h4,
      Except.map, exceptBind_ok]
    simp [decodeOpt, decodeJsonList, Except.map, exceptBind_error]
  · intro kvs vs s a ifs h1 h2 h3 h4 h5
    simp only [ExplanationTaskResponseEntity._from_dict, decodeReqSub, h1, h2, h3, h4,
      h5, Except.map, exceptBind_ok]
    simp [decodeOpt, decodeJsonList, Except.map, exceptBind_error]
  · intro kvs vs s a ifs pr h1 h2 h3 h4 h5 h6
    simp only [ExplanationTaskResponseEntity._from_dict, decodeReqSub, h1, h2, h3, h4,
      h5, h6, Except.map, exceptBind_ok]
    simp [decodeOpt, ExplanationTaskResponseEntityContrastiveExplanation._from_dict,
      Except.map, exceptBind_error]
  · intro kvs h
    simp [GetExplanationTaskResponse._from_dict, h, decodeReqSub,
      ExplanationTaskResponseMetadata._from_dict, Except.map, exceptBind_error]
  · intro kvs vm m h1 h2 h3
    simp [GetExplanationTaskResponse._from_dict, decodeReqSub, h1, h2, h3,
      ExplanationTaskResponseEntity._from_dict, Except.map, exceptBind_ok,
      exceptBind_error]
  · intro kvs h
    simp [PostExplanationTaskResponseEntity._from_dict, h, decodeReqSub,
      PostExplanationTaskResponseEntityStatus._from_dict, Except.map, exceptBind_error]
  · intro kvs h
    simp [PostExplanationTaskResponse._from_dict, h, decodeReqSub,
      ExplanationTaskResponseMetadata._from_dict, Except.map, exceptBind_error]
  · intro kvs vm m h1 h2 h3
    simp [PostExplanationTaskResponse._from_dict, decodeReqSub, h1, h2, h3,
      PostExplanationTaskResponseEntity._from_dict, Except.map, exceptBind_ok,
      exceptBind_error]

/-- Witness for C10: asset with `deployment: null`, explanation feature with
`feature_range: null`, entities with `status: null` and `asset: null`, an
envelope with `metadata: null` — all fail with the TypeError-style error. -/
theorem c10_null_nested_value_witness :
    (ExplanationTaskResponseEntityAsset._from_dict (.obj [("deployment", .null)]) =
      .error .typeError) ∧
    (ExplanationTaskResponseEntity._from_dict (.obj [("status", .null)]) =
      .error .typeError) ∧
    (ExplanationTaskResponseEntityExplanationFeature._from_dict
        (.obj [("feature_range", .null)]) = .error .typeError) ∧
    (ExplanationTaskResponseEntity._from_dict
        (.obj [("status", .obj []), ("asset", .null)]) = .error .typeError) ∧
    (GetExplanationTaskResponse._from_dict (.obj [("metadata", .null)]) =
      .error .typeError) ∧
    (PostExplanationTaskResponseEntity._from_dict (.obj [("status", .null)]) =
      .error .typeError) := by
  obtain ⟨d01, d02, d03, d04, d05, d06, d07, d08, d09, d10, d11, d12, d13, d14, d15,
    d16⟩ := c10_null_nested_value
  exact ⟨d01 [("deployment", .null)] rfl,
    d06 [("status", .null)] rfl,
    d02 [("feature_range", .null)] rfl,
    d07 [("status", .obj []), ("asset", .null)] (.obj []) {} rfl rfl rfl,
    d11 [("metadata", .null)] rfl,
    d13 [("status", .null)] rfl⟩

/-- C1: encoding to JSON omits every optional field whose value is absent —
no record type ever emits a null placeholder among its entries — and
`post_feedback_payload` called without `fields` produces a request body (after
the transport strips None-valued keys, see `requestSentBody`) that omits the
key `fields` entirely. -/
theorem c1_no_null_placeholder :
    (∀ (r : ExplanationTaskResponseEntityAssetDeployment) p, p ∈ r._to_dict.entries →
      p.2.isNull = false) ∧
    (∀ (r : ExplanationTaskResponseEntityAsset) p, p ∈ r._to_dict.entries →
      p.2.isNull = false) ∧
    (∀ (r : ExplanationTaskResponseEntityExplanationFeatureFeatureRange) p,
      p ∈ r._to_dict.entries → p.2.isNull = false) ∧
    (∀ (r : ExplanationTaskResponseEntityExplanationFeature) p, p ∈ r._to_dict.entries →
      p.2.isNull = false) ∧
    (∀ (r : ExplanationTaskResponseEntityInputFeature) p, p ∈ r._to_dict.entries →
      p.2.isNull = false) ∧
    (∀ (r : ExplanationTaskResponseEntityPrediction) p, p ∈ r._to_dict.entries →
      p.2.isNull = false) ∧
    (∀ (r : ExplanationTaskResponseEntityContrastiveExplanation) p,
      p ∈ r._to_dict.entries → p.2.isNull = false) ∧
    (∀ (r : ExplanationTaskResponseEntityStatus) p, p ∈ r._to_dict.entries →
      p.2.isNull = false) ∧
    (∀ (r : ExplanationTaskResponseEntity) p, p ∈ r._to_dict.entries →
      p.2.isNull = false) ∧
    (∀ (r : ExplanationTaskResponseMetadata) p, p ∈ r._to_dict.entries →
      p.2.isNull = false) ∧
    (∀ (r : FairnessMonitoringRemediationResponse) p, p ∈ r._to_dict.entries →
      p.2.isNull = false) ∧
    (∀ (r : GetExplanationTaskResponse) p, p ∈ r._to_dict.entries →
      p.2.isNull = false) ∧
    (∀ (r : PostExplanationTaskResponseEntityStatus) p, p ∈ r._to_dict.entries →
      p.2.isNull = false) ∧
    (∀ (r : PostExplanationTaskResponseEntity) p, p ∈ r._to_dict.entries →
      p.2.isNull = false) ∧
    (∀ (r : PostExplanationTaskResponse) p, p ∈ r._to_dict.entries →
      p.2.isNull = false) ∧
    (∀ dm b s v kw req,
      post_feedback_payload (some dm) (some b) (some s) v .null kw = .ok req →
      requestSentBody req = some (.obj [("binding_id", .str b),
        ("subscription_id", .str s), ("values", v)])) := by
  refine ⟨?_, ?_, ?_, ?_, ?_, ?_, ?_, ?_, ?_, ?_, ?_, ?_, ?_, ?_, ?_, ?_⟩
  · intro r p hp
    simp only [ExplanationTaskResponseEntityAssetDeployment._to_dict, Json.entries,
      List.mem_append] at hp
    casesm* _ ∨ _ <;> (rename_i h; exact mem_optField_not_null h)
  · intro r p hp
    simp only [ExplanationTaskResponseEntityAsset._to_dict, Json.entries,
      List.mem_append] at hp
    casesm* _ ∨ _ <;>
      (rename_i h; first | exact mem_optField_not_null h | exact mem_optSub_map_not_null h (fun x => rfl))
  · intro r p hp
    simp only [ExplanationTaskResponseEntityExplanationFeatureFeatureRange._to_dict,
      Json.entries, List.mem_append] at hp
    casesm* _ ∨ _ <;> (rename_i h; exact mem_optField_not_null h)
  · intro r p hp
    simp only [ExplanationTaskResponseEntityExplanationFeature._to_dict, Json.entries,
      List.mem_append] at hp
    casesm* _ ∨ _ <;>
      (rename_i h; first | exact mem_optField_not_null h | exact mem_optSub_map_not_null h (fun x => rfl))
  · intro r p hp
    simp only [ExplanationTaskResponseEntityInputFeature._to_dict, Json.entries,
      List.mem_append] at hp
    casesm* _ ∨ _ <;> (rename_i h; exact mem_optField_not_null h)
  · intro r p hp
    simp only [ExplanationTaskResponseEntityPrediction._to_dict, Json.entries,
      List.mem_append] at hp
    casesm* _ ∨ _ <;>
      (rename_i h; first | exact mem_optField_not_null h | exact mem_optSub_map_not_null h (fun x => rfl))
  · intro r p hp
    simp only [ExplanationTaskResponseEntityContrastiveExplanation._to_dict, Json.entries,
      List.mem_append] at hp
    casesm* _ ∨ _ <;> (rename_i h; exact mem_optSub_map_not_null h (fun x => rfl))
  · intro r p hp
    simp only [ExplanationTaskResponseEntityStatus._to_dict, Json.entries,
      List.mem_append] at hp
    casesm* _ ∨ _ <;> (rename_i h; exact mem_optField_not_null h)
  · intro r p hp
    simp only [ExplanationTaskResponseEntity._to_dict, Json.entries,
      List.mem_append] at hp
    casesm* _ ∨ _ <;> (rename_i h; exact mem_optSub_map_not_null h (fun x => rfl))
  · intro r p hp
    simp only [ExplanationTaskResponseMetadata._to_dict, Json.entries,
      List.mem_append] at hp
    casesm* _ ∨ _ <;> (rename_i h; exact mem_optField_not_null h)
  · intro r p hp
    simp only [FairnessMonitoringRemediationResponse._to_dict, Json.entries,
      List.mem_append] at hp
    casesm* _ ∨ _ <;> (rename_i h; exact mem_optField_not_null h)
  · intro r p hp
    simp only [GetExplanationTaskResponse._to_dict, Json.entries,
      List.mem_append] at hp
    casesm* _ ∨ _ <;> (rename_i h; exact mem_optSub_map_not_null h (fun x => rfl))
  · intro r p hp
    simp only [PostExplanationTaskResponseEntityStatus._to_dict, Json.entries] at hp
    exact mem_optField_not_null hp
  · intro r p hp
    simp only [PostExplanationTaskResponseEntity._to_dict, Json.entries] at hp
    exact mem_optSub_map_not_null hp (fun x => rfl)
  · intro r p hp
    simp only [PostExplanationTaskResponse._to_dict, Json.entries,
      List.mem_append] at hp
    casesm* _ ∨ _ <;> (rename_i h; exact mem_optSub_map_not_null h (fun x => rfl))
  · intro dm b s v kw req h
    cases hv : v.isNull with
    | true => simp [post_feedback_payload, hv] at h
    | false =>
      simp [post_feedback_payload, hv] at h
      subst h
      simp [requestSentBody, remove_null_values, List.filter_cons, hv,
        isNull_str, isNull_null]

/-- Witness for C1: an entry of an encoded metadata record carries a non-null
value, and the concrete feedback request without `fields` sends a body with no
`fields` key. -/
theorem c1_no_null_placeholder_witness :
    (("id", Json.str "t1") : String × Json).2.isNull = false ∧
    requestSentBody sampleFeedbackRequest = some (.obj [("binding_id", .str "b1"),
      ("subscription_id", .str "s1"), ("values", .arr [.arr [.num 1]])]) :=
  ⟨c1_no_null_placeholder.2.2.2.2.2.2.2.2.2.1 sampleMetadata ("id", Json.str "t1")
    (by simp [sampleMetadata, ExplanationTaskResponseMetadata._to_dict, Json.entries,
      optField, isNull_str]),
   c1_no_null_placeholder.2.2.2.2.2.2.2.2.2.2.2.2.2.2.2 "dm1" "b1" "s1"
    (.arr [.arr [.num 1]]) none sampleFeedbackRequest rfl⟩

end AiOpenScale
